import Mathlib

/-!
Shallow embedding of the pre-trade risk-gating backend
(`apps/api/app/...` of the crypto-saas repository) and proofs about it.

Modelling conventions:
* Python `float` values are modelled as `ℚ` (the claims under scrutiny
  only involve arithmetic that is exact for the inputs in question);
  Python `int` as `ℤ`; Python `str` as `String`.
* Database tables are modelled as Lean lists of row structures, and the
  handlers as explicit state-passing functions on a `Db` record.
* Timestamps are modelled as rational "minutes since epoch"
  (`Clock.now_minutes`); calendar days as an abstract integer day id.
* `hashlib.sha256(...)` is modelled as an explicit function parameter
  `hash : String → String`; canonical (sorted-key) JSON payloads are
  modelled as the `String` they serialize to.
* Audit rows keep the fields the claims talk about (action, user, entity
  type); the free-form `details` JSON is not modelled.
-/

set_option maxHeartbeats 1000000
set_option maxRecDepth 8000

namespace CryptoSaas

/-- Python `str.upper()` on the ASCII data the repository handles
(defined character-wise so that proofs can evaluate it). -/
def py_upper (s : String) : String :=
  String.mk (s.data.map Char.toUpper)

/-- Python `str.lower()` (character-wise). -/
def py_lower (s : String) : String :=
  String.mk (s.data.map Char.toLower)

/-- Python `str.strip()` (character-wise): drop whitespace from both ends. -/
def py_strip (s : String) : String :=
  String.mk (((s.data.dropWhile Char.isWhitespace).reverse.dropWhile Char.isWhitespace).reverse)

/-- One record of a pretrade / exit check list
(the `{"name": ..., "passed": ..., "detail": ...}` dicts of `ops.py`). -/
structure Check where
  name : String
  passed : Bool
  detail : String
deriving Repr, DecidableEq

/-- A risk profile value object (`services/risk_profiles.py`). -/
structure RiskProfile where
  profile_name : String
  max_risk_per_trade_pct : ℚ
  max_daily_loss_pct : ℚ
  max_trades_per_day : ℤ
  max_open_positions : ℤ
  cooldown_between_trades_minutes : ℚ
  max_leverage : ℚ
  stop_loss_required : Bool
  min_rr : ℚ
deriving Repr, DecidableEq

/-- `PROFILE_MODEL2` of `services/risk_profiles.py`. -/
def PROFILE_MODEL2 : RiskProfile :=
  { profile_name := "model2_conservador_productivo"
    max_risk_per_trade_pct := 0.50
    max_daily_loss_pct := 1.50
    max_trades_per_day := 3
    max_open_positions := 2
    cooldown_between_trades_minutes := 30
    max_leverage := 1.0
    stop_loss_required := true
    min_rr := 1.5 }

/-- `PROFILE_LOOSE` of `services/risk_profiles.py`. -/
def PROFILE_LOOSE : RiskProfile :=
  { profile_name := "modelo_suelto_controlado"
    max_risk_per_trade_pct := 0.75
    max_daily_loss_pct := 2.00
    max_trades_per_day := 4
    max_open_positions := 2
    cooldown_between_trades_minutes := 20
    max_leverage := 1.0
    stop_loss_required := true
    min_rr := 1.3 }

/-- The static application settings consumed by the embedded code
(`core/config.py`, only the fields the claims touch). -/
structure Settings where
  RISK_PROFILE_MODEL2_EMAIL : String
  RISK_PROFILE_LOOSE_EMAIL : String
  TRADING_ENABLED_DEFAULT : Bool
  MAX_OPEN_QTY_PER_SYMBOL : ℚ
  MAX_OPEN_NOTIONAL_PER_EXCHANGE : ℚ
deriving Repr, DecidableEq

/-- `_norm_email` of `services/risk_profiles.py`: `(value or "").strip().lower()`. -/
def norm_email (value : String) : String :=
  py_lower (py_strip value)

/-- `resolve_risk_profile_for_email` of `services/risk_profiles.py`. -/
def resolve_risk_profile_for_email (st : Settings) (email : String) : RiskProfile :=
  let model2_email := norm_email st.RISK_PROFILE_MODEL2_EMAIL
  let loose_email := norm_email st.RISK_PROFILE_LOOSE_EMAIL
  let target := norm_email email
  if target ≠ "" ∧ target = loose_email then PROFILE_LOOSE
  else if target ≠ "" ∧ target = model2_email then PROFILE_MODEL2
  else PROFILE_MODEL2

/-- The enumerated profiles, keyed by `profile_name` (the repository's
admin endpoint only accepts override names drawn from its static profile
list). -/
def profile_by_name (name : String) : Option RiskProfile :=
  if name = PROFILE_MODEL2.profile_name then some PROFILE_MODEL2
  else if name = PROFILE_LOOSE.profile_name then some PROFILE_LOOSE
  else none

/-- A `user_risk_profile_override` row (`models/user_risk_profile.py`):
`user_id` primary key and an override `profile_name`. -/
structure RiskProfileOverride where
  user_id : String
  profile_name : String
deriving Repr, DecidableEq

/-- Modelled from the spec: `resolve_risk_profile` is imported by
`api/positions.py`, `api/ops.py` and `api/users.py` from
`services/risk_profiles.py` but its definition is not present under the
provided sources. Per spec §4.1 it resolves a user's profile with
precedence per-user override row > email-based static mapping >
hard-coded default, never raises, and unknown/missing inputs fall
through to the default. The email mapping and default are the present
`resolve_risk_profile_for_email`. -/
def resolve_risk_profile (st : Settings) (overrides : List RiskProfileOverride)
    (user_id : String) (email : String) : RiskProfile :=
  match overrides.find? (fun r => decide (r.user_id = user_id)) with
  | some r =>
      match profile_by_name r.profile_name with
      | some p => p
      | none => resolve_risk_profile_for_email st email
  | none => resolve_risk_profile_for_email st email

/-- `apply_profile_daily_limits`'s effect on a daily-risk row is defined
below once the row structure exists; this places the profile thresholds:
`daily_stop = -abs(max_daily_loss_pct)`, `max_trades = max_trades_per_day`. -/
def profile_daily_stop (p : RiskProfile) : ℚ :=
  -|p.max_daily_loss_pct|

/-- A `daily_risk_state` row (`models/daily_risk.py`). The SQLAlchemy
column defaults are `trades_today=0`, `realized_pnl_today=0.0`,
`daily_stop=-5.0`, `max_trades=3`. -/
structure DailyRiskState where
  user_id : String
  day : ℤ
  trades_today : ℤ
  realized_pnl_today : ℚ
  daily_stop : ℚ
  max_trades : ℤ
deriving Repr, DecidableEq

/-- A freshly constructed `DailyRiskState(user_id=..., day=...)` row with
the model's column defaults (`models/daily_risk.py`). -/
def DailyRiskState.new (user_id : String) (day : ℤ) : DailyRiskState :=
  { user_id := user_id
    day := day
    trades_today := 0
    realized_pnl_today := 0
    daily_stop := -5
    max_trades := 3 }

/-- `apply_profile_daily_limits` of `services/risk_profiles.py`. -/
def apply_profile_daily_limits (dr : DailyRiskState) (p : RiskProfile) : DailyRiskState :=
  { dr with
    daily_stop := -|p.max_daily_loss_pct|
    max_trades := p.max_trades_per_day }

/-- `get_or_create_daily_state` of `services/risk_engine.py`: looks up
today's row for the user and otherwise creates one seeded with
`trades_today=0`, `realized_pnl_today=0.0`, `daily_stop=-5.0`,
`max_trades=3` (fixed literals, no profile argument), committing it.
Returns the row and the updated table. -/
def get_or_create_daily_state (table : List DailyRiskState) (user_id : String)
    (today : ℤ) : DailyRiskState × List DailyRiskState :=
  match table.find? (fun dr => decide (dr.user_id = user_id ∧ dr.day = today)) with
  | some dr => (dr, table)
  | none =>
      let dr : DailyRiskState :=
        { user_id := user_id
          day := today
          trades_today := 0
          realized_pnl_today := 0
          daily_stop := -5
          max_trades := 3 }
      (dr, table ++ [dr])

/-- A `strategy_assignments` row (`models/strategy_assignment.py`). -/
structure StrategyAssignment where
  user_id : String
  exchange : String
  strategy_id : String
  enabled : Bool
deriving Repr, DecidableEq

/-- The resolved strategy dict returned by
`resolve_strategy_for_user_exchange` (`services/strategy_assignments.py`). -/
structure ResolvedStrategy where
  exchange : String
  strategy_id : String
  enabled : Bool
  source : String
deriving Repr, DecidableEq

/-- `normalize_exchange` of `services/strategy_assignments.py`; raises
`ValueError` (modelled as `Except.error`) on anything but BINANCE / IBKR. -/
def normalize_exchange (exchange : String) : Except String String :=
  let value := py_strip (py_upper exchange)
  if value = "BINANCE" ∨ value = "IBKR" then Except.ok value
  else Except.error ("exchange must be BINANCE or IBKR")

/-- `resolve_strategy_for_user_exchange` of `services/strategy_assignments.py`. -/
def resolve_strategy_for_user_exchange (assignments : List StrategyAssignment)
    (user_id : String) (exchange : String) : Except String ResolvedStrategy :=
  match normalize_exchange exchange with
  | Except.error e => Except.error e
  | Except.ok normalized_exchange =>
      match assignments.find?
          (fun a => decide (a.user_id = user_id ∧ a.exchange = normalized_exchange)) with
      | none =>
          Except.ok
            { exchange := normalized_exchange
              strategy_id := "SWING_V1"
              enabled := true
              source := "default" }
      | some row =>
          Except.ok
            { exchange := row.exchange
              strategy_id := row.strategy_id
              enabled := row.enabled
              source := "assignment" }

/-- The `ExitCheckRequest` payload (`schemas/strategy.py`); the pydantic
validator upper-cases `side` and restricts it to BUY / SELL, which is
left to hypotheses where it matters. -/
structure ExitCheckRequest where
  symbol : String
  side : String
  entry_price : ℚ
  current_price : ℚ
  stop_loss : ℚ
  take_profit : ℚ
  opened_minutes : ℤ
  trend_break : Bool
  signal_reverse : Bool
  macro_event_block : Bool
  earnings_within_24h : Bool
deriving Repr, DecidableEq

/-- Python's `list(dict.fromkeys(reasons))`: deduplicate a list keeping
the first occurrence of each element, preserving order. -/
def dedupe_keep_first (xs : List String) : List String :=
  xs.foldl (fun acc r => if r ∈ acc then acc else acc ++ [r]) []

/-- `_build_exit_checks` of `api/ops.py`: the exit-check engine.
Returns the ordered check list and the (deduplicated) reasons list. -/
def build_exit_checks (exchange : String) (strategy_id : String)
    (payload : ExitCheckRequest) : List Check × List String :=
  let ex := py_upper exchange
  let st := py_upper strategy_id
  let side := py_upper payload.side
  let _entry := payload.entry_price
  let current := payload.current_price
  let stop := payload.stop_loss
  let take := payload.take_profit
  let opened_minutes := payload.opened_minutes
  let sl_hit : Bool :=
    if side = "BUY" then decide (current ≤ stop) else decide (current ≥ stop)
  let tp_hit : Bool :=
    if side = "BUY" then decide (current ≥ take) else decide (current ≤ take)
  let checks₁ : List Check :=
    [ { name := "exit_stop_loss_hit", passed := sl_hit
        detail := "current=" ++ toString current ++ " stop=" ++ toString stop }
    , { name := "exit_take_profit_hit", passed := tp_hit
        detail := "current=" ++ toString current ++ " take_profit=" ++ toString take } ]
  let reasons₁ : List String :=
    (if sl_hit then ["stop_loss_hit"] else []) ++
    (if tp_hit then ["take_profit_hit"] else [])
  let max_hold_minutes : ℤ := if st = "INTRADAY_V1" then 240 else 480
  let timeout : Bool := decide (opened_minutes ≥ max_hold_minutes)
  let checks₂ : List Check :=
    checks₁ ++
    [ { name := "exit_time_limit", passed := timeout
        detail := "opened_minutes=" ++ toString opened_minutes
          ++ " limit=" ++ toString max_hold_minutes } ]
  let reasons₂ : List String :=
    reasons₁ ++ (if timeout then ["time_limit_reached"] else [])
  let trend_break := payload.trend_break
  let signal_reverse := payload.signal_reverse
  let checks₃ : List Check :=
    checks₂ ++
    [ { name := "exit_trend_break", passed := trend_break
        detail := "trend_break=" ++ toString trend_break }
    , { name := "exit_signal_reverse", passed := signal_reverse
        detail := "signal_reverse=" ++ toString signal_reverse } ]
  let reasons₃ : List String :=
    reasons₂ ++
    (if trend_break then ["trend_break"] else []) ++
    (if signal_reverse then ["signal_reverse"] else [])
  let event_forced_exit : Bool := payload.macro_event_block || payload.earnings_within_24h
  let checks₄ : List Check :=
    if ex = "IBKR" then
      checks₃ ++
      [ { name := "exit_event_risk", passed := event_forced_exit
          detail := "macro_event_block=" ++ toString payload.macro_event_block
            ++ " earnings_within_24h=" ++ toString payload.earnings_within_24h } ]
    else checks₃
  let reasons₄ : List String :=
    if ex = "IBKR" then
      reasons₃ ++ (if event_forced_exit then ["event_risk_exit"] else [])
    else reasons₃
  (checks₄, dedupe_keep_first reasons₄)

/-- The exit-evaluation response assembled by the
`/ops/execution/exit/{binance,ibkr}/check` endpoints (`api/ops.py`):
`should_exit = len(reasons) > 0` over the engine's output. -/
structure ExitEvalOut where
  should_exit : Bool
  reasons : List String
  checks : List Check
deriving Repr, DecidableEq

/-- The shared tail of the exit-check endpoints of `api/ops.py`. -/
def exit_evaluate (exchange : String) (strategy_id : String)
    (payload : ExitCheckRequest) : ExitEvalOut :=
  let cr := build_exit_checks exchange strategy_id payload
  { should_exit := decide (cr.2.length > 0)
    reasons := cr.2
    checks := cr.1 }

/-- Spec-side trigger predicate: stop-loss hit (claim C7's wording,
matching the BUY / SELL comparison table of §4.5). -/
def exit_sl_trigger (p : ExitCheckRequest) : Bool :=
  if py_upper p.side = "BUY" then decide (p.current_price ≤ p.stop_loss)
  else decide (p.current_price ≥ p.stop_loss)

/-- Spec-side trigger predicate: take-profit hit. -/
def exit_tp_trigger (p : ExitCheckRequest) : Bool :=
  if py_upper p.side = "BUY" then decide (p.current_price ≥ p.take_profit)
  else decide (p.current_price ≤ p.take_profit)

/-- Spec-side trigger predicate: maximum hold time reached. -/
def exit_time_trigger (strategy_id : String) (p : ExitCheckRequest) : Bool :=
  decide (p.opened_minutes ≥ (if py_upper strategy_id = "INTRADAY_V1" then (240 : ℤ) else 480))

/-- Spec-side trigger predicate: IBKR-only event-risk exit. -/
def exit_event_trigger (exchange : String) (p : ExitCheckRequest) : Bool :=
  decide (py_upper exchange = "IBKR") && (p.macro_event_block || p.earnings_within_24h)

/-- The six exit reasons in their fixed order, each present iff its
trigger fired. -/
def six_reason_list (b₁ b₂ b₃ b₄ b₅ b₆ : Bool) : List String :=
  (if b₁ then ["stop_loss_hit"] else []) ++
  (if b₂ then ["take_profit_hit"] else []) ++
  (if b₃ then ["time_limit_reached"] else []) ++
  (if b₄ then ["trend_break"] else []) ++
  (if b₅ then ["signal_reverse"] else []) ++
  (if b₆ then ["event_risk_exit"] else [])

/-- Follows the claim's words (refinement spec for C7): the reasons an
exit evaluation is expected to report, in the fixed order
stop-loss, take-profit, time-limit, trend-break, signal-reverse,
event-risk. -/
def spec_exit_reasons (exchange : String) (strategy_id : String)
    (p : ExitCheckRequest) : List String :=
  six_reason_list (exit_sl_trigger p) (exit_tp_trigger p)
    (exit_time_trigger strategy_id p) p.trend_break p.signal_reverse
    (exit_event_trigger exchange p)

lemma six_reason_list_nodup (b₁ b₂ b₃ b₄ b₅ b₆ : Bool) :
    (six_reason_list b₁ b₂ b₃ b₄ b₅ b₆).Nodup := by
  cases b₁ <;> cases b₂ <;> cases b₃ <;> cases b₄ <;> cases b₅ <;> cases b₆ <;> decide

lemma six_reason_list_mem_time (b₁ b₂ b₃ b₄ b₅ b₆ : Bool) :
    ("time_limit_reached" ∈ six_reason_list b₁ b₂ b₃ b₄ b₅ b₆) ↔ b₃ = true := by
  cases b₁ <;> cases b₂ <;> cases b₃ <;> cases b₄ <;> cases b₅ <;> cases b₆ <;> decide

lemma dedupe_keep_first_go (xs : List String) :
    ∀ acc : List String, xs.Nodup → (∀ x ∈ xs, x ∉ acc) →
      List.foldl (fun acc r => if r ∈ acc then acc else acc ++ [r]) acc xs = acc ++ xs := by
  induction xs with
  | nil => intro acc _ _; simp
  | cons x xs ih =>
      intro acc hnd hdisj
      simp only [List.foldl_cons]
      rw [if_neg (hdisj x (List.mem_cons_self x xs))]
      rw [ih (acc ++ [x]) hnd.of_cons ?_]
      · simp
      · intro y hy
        simp only [List.mem_append, List.mem_singleton]
        push_neg
        exact ⟨hdisj y (List.mem_cons_of_mem x hy),
          fun he => (List.nodup_cons.mp hnd).1 (he ▸ hy)⟩

lemma dedupe_keep_first_eq_self {xs : List String} (h : xs.Nodup) :
    dedupe_keep_first xs = xs := by
  unfold dedupe_keep_first
  simpa using dedupe_keep_first_go xs [] h (by simp)

lemma build_exit_checks_reasons (exchange strategy_id : String) (p : ExitCheckRequest) :
    (build_exit_checks exchange strategy_id p).2 =
      dedupe_keep_first (spec_exit_reasons exchange strategy_id p) := by
  unfold build_exit_checks spec_exit_reasons six_reason_list exit_sl_trigger
    exit_tp_trigger exit_time_trigger exit_event_trigger
  by_cases hib : py_upper exchange = "IBKR"
  · simp [hib]
  · simp [hib]

lemma exit_evaluate_reasons (exchange strategy_id : String) (p : ExitCheckRequest) :
    (exit_evaluate exchange strategy_id p).reasons =
      spec_exit_reasons exchange strategy_id p := by
  show (build_exit_checks exchange strategy_id p).2 = _
  rw [build_exit_checks_reasons]
  exact dedupe_keep_first_eq_self (six_reason_list_nodup _ _ _ _ _ _)

/-- C7: for every exit evaluation, `should_exit` is true if and only if
the reasons list is non-empty, and the reasons list is the deduplicated,
first-occurrence-order-preserving sequence of triggered reasons in the
fixed order stop_loss_hit, take_profit_hit, time_limit_reached,
trend_break, signal_reverse, event_risk_exit; in particular triggering
both stop-loss and trend-break (and nothing else) yields exactly
["stop_loss_hit", "trend_break"]. -/
theorem exit_reasons_ordered_dedup (exchange strategy_id : String) (p : ExitCheckRequest) :
    ((exit_evaluate exchange strategy_id p).should_exit = true ↔
        (exit_evaluate exchange strategy_id p).reasons ≠ []) ∧
    (exit_evaluate exchange strategy_id p).reasons =
        spec_exit_reasons exchange strategy_id p ∧
    ((exit_evaluate exchange strategy_id p).reasons).Nodup ∧
    (exit_evaluate "BINANCE" "SWING_V1"
        { symbol := "BTCUSDT", side := "BUY", entry_price := 100, current_price := 80,
          stop_loss := 90, take_profit := 120, opened_minutes := 0,
          trend_break := true, signal_reverse := false,
          macro_event_block := false, earnings_within_24h := false }).reasons
      = ["stop_loss_hit", "trend_break"] := by
  refine ⟨?_, exit_evaluate_reasons _ _ _, ?_, ?_⟩
  · show decide ((build_exit_checks exchange strategy_id p).2.length > 0) = true ↔
      (build_exit_checks exchange strategy_id p).2 ≠ []
    simp [List.length_pos]
  · rw [exit_evaluate_reasons]
    exact six_reason_list_nodup _ _ _ _ _ _
  · decide

/-- C8 (counterexample): with strategy INTRADAY_V1 and
`opened_minutes = 240`, the code reports `time_limit_reached` although
240 does not strictly exceed the 240-minute maximum hold time, refuting
the claim that the reason is produced exactly when `opened_minutes`
exceeds the limit. -/
theorem exit_time_limit_at_exact_bound :
    (exit_evaluate "BINANCE" "INTRADAY_V1"
        { symbol := "BTCUSDT", side := "BUY", entry_price := 100, current_price := 100,
          stop_loss := 90, take_profit := 110, opened_minutes := 240,
          trend_break := false, signal_reverse := false,
          macro_event_block := false, earnings_within_24h := false }).reasons
        = ["time_limit_reached"] ∧
    ¬ ((240 : ℤ) > 240) := by
  refine ⟨?_, by decide⟩
  decide

/-- C8 (amended): for every exit evaluation, the `time_limit_reached`
reason is produced exactly when the position's `opened_minutes` reaches
or exceeds (`≥`) the maximum hold time, which is 240 minutes when the
strategy is INTRADAY_V1 and 480 minutes otherwise; below the limit the
reason is absent. -/
theorem exit_time_limit_threshold (exchange strategy_id : String) (p : ExitCheckRequest) :
    ("time_limit_reached" ∈ (exit_evaluate exchange strategy_id p).reasons) ↔
      p.opened_minutes ≥ (if py_upper strategy_id = "INTRADAY_V1" then (240 : ℤ) else 480) := by
  rw [exit_evaluate_reasons]
  exact Iff.trans (six_reason_list_mem_time _ _ _ _ _ _)
    (by simp [exit_time_trigger])

/-- The error taxonomy visible to the embedding: `fastapi.HTTPException`
with its status code and detail, and SQLAlchemy's `IntegrityError`. -/
inductive ApiError where
  | http (status_code : ℤ) (detail : String)
  | integrityError
deriving Repr, DecidableEq

/-- An `idempotency_keys` row (`models/idempotency_key.py`), unique on
`(user_id, endpoint, key_hash)`. -/
structure IdempotencyKeyRow where
  user_id : String
  endpoint : String
  key_hash : String
  request_hash : String
  response_json : String
  status_code : ℤ
deriving Repr, DecidableEq

/-- Row lookup by the unique `(user_id, endpoint, key_hash)` triple. -/
def find_idem (table : List IdempotencyKeyRow) (user_id endpoint key_hash : String) :
    Option IdempotencyKeyRow :=
  table.find? (fun r =>
    decide (r.user_id = user_id ∧ r.endpoint = endpoint ∧ r.key_hash = key_hash))

/-- `consume_idempotent_response` of `services/idempotency.py`.
`hash` stands for `_sha256`; `request_payload` for the canonical
(sorted-key, compact) JSON string `_canonical_payload` produces. -/
def consume_idempotent_response (hash : String → String)
    (table : List IdempotencyKeyRow) (user_id endpoint : String)
    (idempotency_key : Option String) (request_payload : String) :
    Except ApiError (Option String) :=
  match idempotency_key with
  | none => Except.ok none
  | some k₀ =>
      if k₀ = "" then Except.ok none
      else
        let key := py_strip k₀
        if key = "" then Except.ok none
        else if key.length > 128 then
          Except.error (ApiError.http 400 ("Idempotency key too long (max 128 chars)"))
        else
          let key_hash := hash key
          let request_hash := hash request_payload
          match find_idem table user_id endpoint key_hash with
          | none => Except.ok none
          | some row =>
              if row.request_hash ≠ request_hash then
                Except.error
                  (ApiError.http 409 ("Idempotency key already used with different payload"))
              else Except.ok (some row.response_json)

/-- `store_idempotent_response` of `services/idempotency.py`. The
`db.commit()` of the fresh row raises `IntegrityError` exactly when a
row with the same unique `(user_id, endpoint, key_hash)` already exists;
the handler then rolls back, re-reads that row and compares request
hashes, returning silently on a match and re-raising otherwise. -/
def store_idempotent_response (hash : String → String)
    (table : List IdempotencyKeyRow) (user_id endpoint : String)
    (idempotency_key : Option String) (request_payload response_payload : String)
    (status_code : ℤ) : Except ApiError (List IdempotencyKeyRow) :=
  match idempotency_key with
  | none => Except.ok table
  | some k₀ =>
      if k₀ = "" then Except.ok table
      else
        let key := py_strip k₀
        if key = "" then Except.ok table
        else
          let key_hash := hash key
          let request_hash := hash request_payload
          let row : IdempotencyKeyRow :=
            { user_id := user_id
              endpoint := endpoint
              key_hash := key_hash
              request_hash := request_hash
              response_json := response_payload
              status_code := status_code }
          match find_idem table user_id endpoint key_hash with
          | none => Except.ok (table ++ [row])
          | some existing =>
              if existing.request_hash = request_hash then Except.ok table
              else Except.error ApiError.integrityError

lemma find?_append_of_none {α} {l₁ : List α} (l₂ : List α) {p : α → Bool}
    (h : l₁.find? p = none) : (l₁ ++ l₂).find? p = l₂.find? p := by
  induction l₁ with
  | nil => simp
  | cons x xs ih =>
      by_cases hx : p x = true
      · rw [List.find?_cons_of_pos _ hx] at h
        exact absurd h (by simp)
      · have hx' : p x = false := by
          cases hpx : p x with
          | true => exact absurd hpx hx
          | false => rfl
        rw [List.find?_cons_of_neg _ (by simp [hx'])] at h
        simpa [List.find?_cons_of_neg _ (by simp [hx'] : ¬ p x = true)] using ih h

lemma find_idem_append_fresh {table : List IdempotencyKeyRow}
    {user_id endpoint key_hash : String} (row : IdempotencyKeyRow)
    (h : find_idem table user_id endpoint key_hash = none)
    (hrow : row.user_id = user_id ∧ row.endpoint = endpoint ∧ row.key_hash = key_hash) :
    find_idem (table ++ [row]) user_id endpoint key_hash = some row := by
  unfold find_idem at h ⊢
  rw [find?_append_of_none _ h]
  simp [hrow.1, hrow.2.1, hrow.2.2]

/-- C4: for every (user, endpoint, key): after a response is stored
under a key, consuming with the same key and a request whose canonical
JSON hash is identical returns the stored response (no re-execution);
consuming with the same key and a different request hash raises a
conflict error; with no key supplied both consume and store are no-ops;
and a uniqueness violation on first insert is resolved by re-reading the
existing row and comparing request hashes — returning silently on a
match and re-raising otherwise. -/
theorem idempotency_consume_store_contract
    (hash : String → String) (table : List IdempotencyKeyRow)
    (user_id endpoint k req req' resp : String) (code : ℤ)
    (hkey : py_strip k ≠ "")
    (hlen : ¬ (py_strip k).length > 128)
    (hfresh : find_idem table user_id endpoint (hash (py_strip k)) = none) :
    (consume_idempotent_response hash table user_id endpoint none req = Except.ok none ∧
      store_idempotent_response hash table user_id endpoint none req resp code =
        Except.ok table) ∧
    (∃ table',
      store_idempotent_response hash table user_id endpoint (some k) req resp code =
          Except.ok table' ∧
      consume_idempotent_response hash table' user_id endpoint (some k) req =
          Except.ok (some resp) ∧
      (hash req' ≠ hash req →
        consume_idempotent_response hash table' user_id endpoint (some k) req' =
          Except.error
            (ApiError.http 409 ("Idempotency key already used with different payload")))) ∧
    (∀ table₂ existing,
      find_idem table₂ user_id endpoint (hash (py_strip k)) = some existing →
        (existing.request_hash = hash req →
          store_idempotent_response hash table₂ user_id endpoint (some k) req resp code =
            Except.ok table₂) ∧
        (existing.request_hash ≠ hash req →
          store_idempotent_response hash table₂ user_id endpoint (some k) req resp code =
            Except.error ApiError.integrityError)) := by
  have hk0 : ¬ k = "" := by
    intro h
    exact hkey (by rw [h]; rfl)
  refine ⟨⟨rfl, rfl⟩, ?_, ?_⟩
  · refine ⟨table ++
      [{ user_id := user_id, endpoint := endpoint, key_hash := hash (py_strip k),
         request_hash := hash req, response_json := resp, status_code := code }],
      ?_, ?_, ?_⟩
    · simp [store_idempotent_response, hk0, hkey, hfresh]
    · have hf := @find_idem_append_fresh table user_id endpoint (hash (py_strip k))
        { user_id := user_id, endpoint := endpoint, key_hash := hash (py_strip k),
          request_hash := hash req, response_json := resp, status_code := code }
        hfresh ⟨rfl, rfl, rfl⟩
      simp [consume_idempotent_response, hk0, hkey, hlen, hf]
    · intro hne
      have hne' : ¬ hash req = hash req' := fun h => hne h.symm
      have hf := @find_idem_append_fresh table user_id endpoint (hash (py_strip k))
        { user_id := user_id, endpoint := endpoint, key_hash := hash (py_strip k),
          request_hash := hash req, response_json := resp, status_code := code }
        hfresh ⟨rfl, rfl, rfl⟩
      simp [consume_idempotent_response, hk0, hkey, hlen, hf, hne']
  · intro table₂ existing hfind
    constructor
    · intro heq
      simp [store_idempotent_response, hk0, hkey, hfind, heq]
    · intro hne
      simp [store_idempotent_response, hk0, hkey, hfind, hne]

/-- Witness for C4 at hash = id, an empty table, key "key-1". -/
theorem idempotency_consume_store_contract_witness :
    (py_strip ("key-1") ≠ "" ∧ ¬ (py_strip ("key-1")).length > 128 ∧
      find_idem [] "u1" "/positions/open_from_signal" (id (py_strip ("key-1"))) = none) ∧
    (∃ table',
      store_idempotent_response id [] "u1" "/positions/open_from_signal"
          (some "key-1") "a" "r" 200 = Except.ok table' ∧
      consume_idempotent_response id table' "u1" "/positions/open_from_signal"
          (some "key-1") "a" = Except.ok (some "r")) := by
  refine ⟨⟨by decide, by decide, rfl⟩, ?_⟩
  obtain ⟨t, h1, h2, _⟩ :=
    (idempotency_consume_store_contract id [] "u1" "/positions/open_from_signal"
      "key-1" "a" "b" "r" 200 (by decide) (by decide) rfl).2.1
  exact ⟨t, h1, h2⟩

/-- C10: a supplied idempotency key consisting only of whitespace is
treated exactly like an absent key (consume returns nothing and store
caches nothing, for every table), and a key whose trimmed length exceeds
128 characters causes consume to reject with a 400 validation error
before any replay lookup (for every table content). -/
theorem idempotency_key_whitespace_and_length
    (hash : String → String) (table : List IdempotencyKeyRow)
    (user_id endpoint k k' req resp : String) (code : ℤ)
    (hws : py_strip k = "")
    (hlong : (py_strip k').length > 128) :
    consume_idempotent_response hash table user_id endpoint (some k) req = Except.ok none ∧
    store_idempotent_response hash table user_id endpoint (some k) req resp code =
      Except.ok table ∧
    consume_idempotent_response hash table user_id endpoint (some k') req =
      Except.error (ApiError.http 400 ("Idempotency key too long (max 128 chars)")) := by
  have hk' : ¬ k' = "" := by
    intro h
    rw [h] at hlong
    exact absurd hlong (by decide)
  have hk'ne : ¬ py_strip k' = "" := by
    intro h
    rw [h] at hlong
    exact absurd hlong (by decide)
  refine ⟨?_, ?_, ?_⟩
  · by_cases hk : k = ""
    · simp [consume_idempotent_response, hk]
    · simp [consume_idempotent_response, hk, hws]
  · by_cases hk : k = ""
    · simp [store_idempotent_response, hk]
    · simp [store_idempotent_response, hk, hws]
  · simp [consume_idempotent_response, hk', hk'ne, hlong]

/-- Witness for C10 at a three-space key and a 129-character key. -/
theorem idempotency_key_whitespace_and_length_witness :
    (py_strip ("   ") = "" ∧ (py_strip (String.mk (List.replicate 129 'a'))).length > 128) ∧
    consume_idempotent_response id [] "u1" "/e" (some "   ") "a" = Except.ok none ∧
    consume_idempotent_response id [] "u1" "/e" (some (String.mk (List.replicate 129 'a'))) "a" =
      Except.error (ApiError.http 400 ("Idempotency key too long (max 128 chars)")) := by
  have h := idempotency_key_whitespace_and_length id [] "u1" "/e" "   "
    (String.mk (List.replicate 129 'a')) "a" "r" 200 (by decide) (by decide)
  exact ⟨⟨by decide, by decide⟩, h.1, h.2.2⟩

/-- A `positions` row (`models/position.py`); timestamps are rational
minutes since epoch. -/
structure Position where
  id : String
  user_id : String
  signal_id : String
  symbol : String
  side : String
  qty : ℚ
  entry_price : ℚ
  stop_loss : Option ℚ
  take_profit : Option ℚ
  status : String
  opened_at : ℚ
  closed_at : Option ℚ
  realized_pnl : Option ℚ
  fees : Option ℚ
deriving Repr, DecidableEq

/-- A `signals` row (`models/signal.py`, the fields `open_from_signal`
and `close_position` read). -/
structure Signal where
  id : String
  user_id : String
  symbol : String
  entry_price : Option ℚ
  stop_loss : Option ℚ
  take_profit : Option ℚ
  status : String
deriving Repr, DecidableEq

/-- A `runtime_settings` row (`models/runtime_setting.py`, the fields
the kill-switch uses). -/
structure RuntimeSetting where
  key : String
  bool_value : Option Bool
deriving Repr, DecidableEq

/-- An audit row (`models/audit_log.py`); the free-form `details` JSON
is not modelled, the claims only inspect `action`. -/
structure AuditEntry where
  action : String
  user_id : String
  entity_type : String
deriving Repr, DecidableEq

/-- An `exchange_secrets` row (`models/exchange_secret.py`, only the
lookup key matters for the pretrade check). -/
structure ExchangeSecret where
  user_id : String
  exchange : String
deriving Repr, DecidableEq

/-- The authenticated user (`models/user.py` fields the handlers read). -/
structure User where
  id : String
  email : String
  role : String
deriving Repr, DecidableEq

/-- The database state threaded through the embedded handlers. -/
structure Db where
  signals : List Signal
  positions : List Position
  daily_risk : List DailyRiskState
  runtime_settings : List RuntimeSetting
  idempotency_keys : List IdempotencyKeyRow
  risk_overrides : List RiskProfileOverride
  strategy_assignments : List StrategyAssignment
  exchange_secrets : List ExchangeSecret
  audit_log : List AuditEntry
  next_position_id : ℕ
deriving Repr, DecidableEq

/-- The request clock: `datetime.now` in minutes and `today_colombia()`
as an abstract day id. -/
structure Clock where
  now_minutes : ℚ
  today : ℤ
deriving Repr, DecidableEq

/-- `log_audit_event` of `services/audit.py` (append an audit row). -/
def log_audit_event (db : Db) (action user_id entity_type : String) : Db :=
  { db with audit_log := db.audit_log ++ [⟨action, user_id, entity_type⟩] }

/-- `TRADING_ENABLED_KEY` of `services/trading_controls.py`. -/
def TRADING_ENABLED_KEY : String := "trading_enabled"

/-- `get_trading_enabled` of `services/trading_controls.py`: read the
runtime-setting row, falling back to `settings.TRADING_ENABLED_DEFAULT`
when the row or its `bool_value` is unset. -/
def get_trading_enabled (st : Settings) (rows : List RuntimeSetting) : Bool :=
  match rows.find? (fun r => decide (r.key = TRADING_ENABLED_KEY)) with
  | none => st.TRADING_ENABLED_DEFAULT
  | some row =>
      match row.bool_value with
      | none => st.TRADING_ENABLED_DEFAULT
      | some b => b

/-- `infer_exchange_from_symbol` of `services/trading_controls.py`:
upper-case, then BINANCE iff the symbol ends with "USDT" or contains
"/USDT", else IBKR. -/
def infer_exchange_from_symbol (symbol : String) : String :=
  let s := py_upper symbol
  if decide (List.IsSuffix ("USDT").data s.data) ||
      decide (List.IsInfix ("/USDT").data s.data) then "BINANCE"
  else "IBKR"

/-- `assert_trading_enabled` of `services/trading_controls.py`: when the
kill-switch is off, write the `execution.blocked.kill_switch` audit row,
commit, and raise 409. -/
def assert_trading_enabled (st : Settings) (db : Db) (user : User)
    (_action _exchange : String) : Except (ApiError × Db) Unit :=
  if get_trading_enabled st db.runtime_settings then Except.ok ()
  else
    Except.error
      (ApiError.http 409 ("Trading is globally disabled by admin kill-switch"),
        log_audit_event db "execution.blocked.kill_switch" user.id "execution")

/-- The caller's OPEN positions, as queried by `assert_exposure_limits`,
`open_from_signal` and the pretrade engine. -/
def open_positions_for (positions : List Position) (user_id : String) : List Position :=
  positions.filter (fun p => decide (p.user_id = user_id ∧ p.status = "OPEN"))

/-- `assert_exposure_limits` of `services/trading_controls.py`. -/
def assert_exposure_limits (st : Settings) (db : Db) (user : User)
    (exchange symbol : String) (qty price_estimate : ℚ) : Except (ApiError × Db) Unit :=
  let max_qty := st.MAX_OPEN_QTY_PER_SYMBOL
  let max_notional_exchange := st.MAX_OPEN_NOTIONAL_PER_EXCHANGE
  let open_positions := open_positions_for db.positions user.id
  let symbol_upper := py_upper symbol
  let exchange_upper := py_upper exchange
  let open_qty_symbol :=
    ((open_positions.filter (fun p => decide (py_upper p.symbol = symbol_upper))).map
      (fun p => p.qty)).sum
  let open_notional_exchange :=
    ((open_positions.filter
        (fun p => decide (infer_exchange_from_symbol (py_upper p.symbol) = exchange_upper))).map
      (fun p => p.qty * p.entry_price)).sum
  let projected_qty_symbol := open_qty_symbol + qty
  if max_qty > 0 ∧ projected_qty_symbol > max_qty then
    Except.error
      (ApiError.http 409 ("Risk block: symbol exposure exceeded ("
          ++ toString projected_qty_symbol ++ ">" ++ toString max_qty ++ ")"),
        log_audit_event db "execution.blocked.exposure.symbol_qty" user.id "risk")
  else
    let projected_notional_exchange := open_notional_exchange + qty * max 0 price_estimate
    if max_notional_exchange > 0 ∧ projected_notional_exchange > max_notional_exchange then
      Except.error
        (ApiError.http 409 ("Risk block: exchange exposure exceeded ("
            ++ toString projected_notional_exchange ++ ">" ++ toString max_notional_exchange ++ ")"),
          log_audit_event db "execution.blocked.exposure.exchange_notional" user.id "risk")
    else Except.ok ()

/-- The SQL `max(coalesce(closed_at, opened_at))` over the user's
positions, used by both cooldown checks. -/
def last_trade_at (positions : List Position) (user_id : String) : Option ℚ :=
  ((positions.filter (fun p => decide (p.user_id = user_id))).map
    (fun p => p.closed_at.getD p.opened_at)).max?

/-- The `PretradeCheckRequest` payload (`schemas/strategy.py`); the
pydantic validators normalize `side` and the timeframe fields to
upper-cased trimmed strings before the handler runs. -/
structure PretradeCheckRequest where
  symbol : String
  side : String
  qty : ℚ
  rr_estimate : ℚ
  trend_tf : String
  signal_tf : String
  timing_tf : String
  spread_bps : ℚ
  slippage_bps : ℚ
  volume_24h_usdt : ℚ
  in_rth : Bool
  macro_event_block : Bool
  earnings_within_24h : Bool
deriving Repr, DecidableEq

/-- `_build_strategy_checks` of `api/ops.py`: the strategy-specific
timeframe / risk-reward checks followed by the exchange-specific
liquidity (BINANCE) or session/event (IBKR) checks. -/
def build_strategy_checks (exchange : String) (strategy_id : String)
    (payload : PretradeCheckRequest) : List Check :=
  let ex := py_upper exchange
  let st := py_upper strategy_id
  let rr_min : ℚ := if st = "INTRADAY_V1" then 1.3 else 1.5
  let allowed_trend_tfs : List String :=
    if st = "INTRADAY_V1" then ["1H"]
    else if ex = "IBKR" then ["1D", "4H"] else ["4H"]
  let allowed_signal_tfs : List String :=
    if st = "INTRADAY_V1" then ["15M"]
    else if ex = "IBKR" then ["1H", "30M"] else ["1H"]
  let allowed_timing_tfs : List String :=
    if st = "INTRADAY_V1" then ["5M", "15M"]
    else if ex = "IBKR" then ["5M", "15M"] else ["15M"]
  let base : List Check :=
    [ { name := "strategy_rr_min"
        passed := decide (payload.rr_estimate ≥ rr_min)
        detail := "rr=" ++ toString payload.rr_estimate ++ " required>=" ++ toString rr_min }
    , { name := "strategy_trend_tf"
        passed := decide (payload.trend_tf ∈ allowed_trend_tfs)
        detail := "value=" ++ payload.trend_tf ++ " allowed=" ++ toString allowed_trend_tfs }
    , { name := "strategy_signal_tf"
        passed := decide (payload.signal_tf ∈ allowed_signal_tfs)
        detail := "value=" ++ payload.signal_tf ++ " allowed=" ++ toString allowed_signal_tfs }
    , { name := "strategy_timing_tf"
        passed := decide (payload.timing_tf ∈ allowed_timing_tfs)
        detail := "value=" ++ payload.timing_tf ++ " allowed=" ++ toString allowed_timing_tfs } ]
  if ex = "BINANCE" then
    let min_volume : ℚ := if st = "INTRADAY_V1" then 80000000 else 50000000
    let max_spread : ℚ := if st = "INTRADAY_V1" then 8 else 10
    let max_slippage : ℚ := if st = "INTRADAY_V1" then 12 else 15
    base ++
      [ { name := "liq_volume_24h"
          passed := decide (payload.volume_24h_usdt ≥ min_volume)
          detail := "value=" ++ toString payload.volume_24h_usdt
            ++ " required>=" ++ toString min_volume }
      , { name := "liq_spread_bps"
          passed := decide (payload.spread_bps ≤ max_spread)
          detail := "value=" ++ toString payload.spread_bps
            ++ " required<=" ++ toString max_spread }
      , { name := "liq_slippage_bps"
          passed := decide (payload.slippage_bps ≤ max_slippage)
          detail := "value=" ++ toString payload.slippage_bps
            ++ " required<=" ++ toString max_slippage } ]
  else
    base ++
      [ { name := "ibkr_in_rth"
          passed := payload.in_rth
          detail := "must be true" }
      , { name := "ibkr_no_macro_block"
          passed := !payload.macro_event_block
          detail := "macro_event_block=" ++ toString payload.macro_event_block }
      , { name := "ibkr_no_earnings_24h"
          passed := !payload.earnings_within_24h
          detail := "earnings_within_24h=" ++ toString payload.earnings_within_24h } ]

/-- The pretrade-evaluation response dict of `_evaluate_pretrade_for_user`. -/
structure PretradeEvalOut where
  passed : Bool
  exchange : String
  strategy_id : String
  strategy_source : String
  risk_profile : String
  checks : List Check
deriving Repr, DecidableEq

/-- The body of `_evaluate_pretrade_for_user` of `api/ops.py` after
strategy resolution: builds the six account / risk checks, appends the
strategy checks, computes `passed = all(c.passed)`, and writes the
`pretrade.check.passed` / `pretrade.check.blocked` audit row (committed). -/
def pretrade_result (st : Settings) (clock : Clock) (db : Db)
    (user : User) (exchange : String) (payload : PretradeCheckRequest)
    (strategy : ResolvedStrategy) : PretradeEvalOut × Db :=
  let profile := resolve_risk_profile st db.risk_overrides user.id user.email
  let today := clock.today
  let check₁ : Check :=
    { name := "strategy_enabled"
      passed := strategy.enabled
      detail := strategy.strategy_id ++ " (" ++ strategy.source ++ ")" }
  let has_secret : Bool :=
    (db.exchange_secrets.find?
      (fun se => decide (se.user_id = user.id ∧ se.exchange = exchange))).isSome
  let check₂ : Check :=
    { name := "exchange_secret_configured", passed := has_secret, detail := exchange }
  let dr := db.daily_risk.find? (fun d => decide (d.user_id = user.id ∧ d.day = today))
  let max_trades := profile.max_trades_per_day
  let daily_stop := -|profile.max_daily_loss_pct|
  let trades_today : ℤ := match dr with | some d => d.trades_today | none => 0
  let realized_pnl_today : ℚ := match dr with | some d => d.realized_pnl_today | none => 0
  let check₃ : Check :=
    { name := "daily_stop_not_reached"
      passed := decide (realized_pnl_today > daily_stop)
      detail := "pnl=" ++ toString realized_pnl_today
        ++ " threshold=" ++ toString daily_stop }
  let check₄ : Check :=
    { name := "max_trades_not_reached"
      passed := decide (trades_today < max_trades)
      detail := "trades=" ++ toString trades_today ++ "/" ++ toString max_trades }
  let max_open_positions := profile.max_open_positions
  let open_positions : ℤ := (open_positions_for db.positions user.id).length
  let check₅ : Check :=
    { name := "max_open_positions_not_reached"
      passed := decide (open_positions < max_open_positions)
      detail := "open=" ++ toString open_positions ++ "/" ++ toString max_open_positions }
  let cooldown_minutes := profile.cooldown_between_trades_minutes
  let lt := last_trade_at db.positions user.id
  let cooldown_passed : Bool :=
    match lt with
    | none => true
    | some t => decide (clock.now_minutes - t ≥ cooldown_minutes)
  let cooldown_detail : String :=
    match lt with
    | none => "no previous trade"
    | some t => "elapsed=" ++ toString (clock.now_minutes - t)
        ++ "m required=" ++ toString cooldown_minutes ++ "m"
  let check₆ : Check :=
    { name := "cooldown_passed", passed := cooldown_passed, detail := cooldown_detail }
  let strategy_checks := build_strategy_checks exchange strategy.strategy_id payload
  let checks := [check₁, check₂, check₃, check₄, check₅, check₆] ++ strategy_checks
  let passed := checks.all (fun c => c.passed)
  let action := if passed then "pretrade.check.passed" else "pretrade.check.blocked"
  ({ passed := passed
     exchange := exchange
     strategy_id := strategy.strategy_id
     strategy_source := strategy.source
     risk_profile := profile.profile_name
     checks := checks },
    log_audit_event db action user.id "pretrade")

/-- `_evaluate_pretrade_for_user` of `api/ops.py`: resolve the strategy
(a `ValueError` from `normalize_exchange` propagates as `Except.error`)
and produce the evaluation result and updated state. -/
def evaluate_pretrade_for_user (st : Settings) (clock : Clock) (db : Db)
    (user : User) (exchange : String) (payload : PretradeCheckRequest) :
    Except String (PretradeEvalOut × Db) :=
  match resolve_strategy_for_user_exchange db.strategy_assignments user.id exchange with
  | Except.error e => Except.error e
  | Except.ok strategy =>
      Except.ok (pretrade_result st clock db user exchange payload strategy)

lemma build_strategy_checks_names (exchange strategy_id : String)
    (payload : PretradeCheckRequest) :
    (build_strategy_checks exchange strategy_id payload).map (fun c => c.name) =
      ["strategy_rr_min", "strategy_trend_tf", "strategy_signal_tf", "strategy_timing_tf"] ++
      (if py_upper exchange = "BINANCE" then
        ["liq_volume_24h", "liq_spread_bps", "liq_slippage_bps"]
      else ["ibkr_in_rth", "ibkr_no_macro_block", "ibkr_no_earnings_24h"]) := by
  unfold build_strategy_checks
  by_cases hex : py_upper exchange = "BINANCE" <;>
    by_cases hst : py_upper strategy_id = "INTRADAY_V1" <;>
      simp [hex, hst]

lemma evaluate_pretrade_eq (st : Settings) (clock : Clock) (db : Db) (user : User)
    (exchange : String) (payload : PretradeCheckRequest) (strategy : ResolvedStrategy)
    (h : resolve_strategy_for_user_exchange db.strategy_assignments user.id exchange =
      Except.ok strategy) :
    evaluate_pretrade_for_user st clock db user exchange payload =
      Except.ok (pretrade_result st clock db user exchange payload strategy) := by
  unfold evaluate_pretrade_for_user
  rw [h]

/-- C2: for every pretrade evaluation over a resolvable exchange, the
returned checks list contains every check of the fixed set in the fixed
order — strategy_enabled, exchange_secret_configured,
daily_stop_not_reached, max_trades_not_reached,
max_open_positions_not_reached, cooldown_passed, then the
strategy-specific and exchange-specific checks — regardless of which
checks fail, the overall `passed` equals the conjunction of the `passed`
flags of all checks, every evaluation is audited, and two evaluations
with identical inputs return the identical check list and `passed`. -/
theorem pretrade_checks_total_and_conjunctive
    (st : Settings) (clock : Clock) (db : Db) (user : User)
    (exchange : String) (payload : PretradeCheckRequest) (strategy : ResolvedStrategy)
    (h : resolve_strategy_for_user_exchange db.strategy_assignments user.id exchange =
      Except.ok strategy) :
    ∃ out db',
      evaluate_pretrade_for_user st clock db user exchange payload = Except.ok (out, db') ∧
      out.checks.map (fun c => c.name) =
        ["strategy_enabled", "exchange_secret_configured", "daily_stop_not_reached",
          "max_trades_not_reached", "max_open_positions_not_reached", "cooldown_passed",
          "strategy_rr_min", "strategy_trend_tf", "strategy_signal_tf", "strategy_timing_tf"] ++
        (if py_upper exchange = "BINANCE" then
          ["liq_volume_24h", "liq_spread_bps", "liq_slippage_bps"]
        else ["ibkr_in_rth", "ibkr_no_macro_block", "ibkr_no_earnings_24h"]) ∧
      out.passed = out.checks.all (fun c => c.passed) ∧
      db' = log_audit_event db
        (if out.passed then "pretrade.check.passed" else "pretrade.check.blocked")
        user.id "pretrade" ∧
      (∀ out₂ db₂,
        evaluate_pretrade_for_user st clock db user exchange payload =
            Except.ok (out₂, db₂) →
          out₂ = out ∧ db₂ = db') := by
  have heval := evaluate_pretrade_eq st clock db user exchange payload strategy h
  refine ⟨(pretrade_result st clock db user exchange payload strategy).1,
    (pretrade_result st clock db user exchange payload strategy).2,
    by rw [heval], ?_, ?_, ?_, ?_⟩
  · show ((pretrade_result st clock db user exchange payload strategy).1.checks).map
      (fun c => c.name) = _
    simp only [pretrade_result, List.map_append, List.map_cons, List.map_nil]
    rw [build_strategy_checks_names]
    simp
  · rfl
  · rfl
  · intro out₂ db₂ h₂
    rw [heval] at h₂
    injection h₂ with h₃
    exact ⟨(congrArg Prod.fst h₃).symm, (congrArg Prod.snd h₃).symm⟩

/-- Sample empty database for witnesses. -/
def db₀ : Db :=
  { signals := [], positions := [], daily_risk := [], runtime_settings := []
    idempotency_keys := [], risk_overrides := [], strategy_assignments := []
    exchange_secrets := [], audit_log := [], next_position_id := 0 }

/-- Sample settings for witnesses (env-default values of `core/config.py`). -/
def settings₀ : Settings :=
  { RISK_PROFILE_MODEL2_EMAIL := "", RISK_PROFILE_LOOSE_EMAIL := ""
    TRADING_ENABLED_DEFAULT := true
    MAX_OPEN_QTY_PER_SYMBOL := 0, MAX_OPEN_NOTIONAL_PER_EXCHANGE := 0 }

/-- Sample authenticated trader for witnesses. -/
def user₀ : User :=
  { id := "u1", email := "trader@test.com", role := "trader" }

/-- Sample request clock for witnesses. -/
def clock₀ : Clock :=
  { now_minutes := 1000000, today := 20000 }

/-- Sample pretrade payload for witnesses (the passing BINANCE payload of
the integration tests). -/
def payload₀ : PretradeCheckRequest :=
  { symbol := "BTCUSDT", side := "BUY", qty := 0.01, rr_estimate := 1.6
    trend_tf := "4H", signal_tf := "1H", timing_tf := "15M"
    spread_bps := 7, slippage_bps := 10, volume_24h_usdt := 90000000
    in_rth := true, macro_event_block := false, earnings_within_24h := false }

/-- Witness for C2 on the empty database and the sample BINANCE payload. -/
theorem pretrade_checks_total_and_conjunctive_witness :
    resolve_strategy_for_user_exchange db₀.strategy_assignments user₀.id "BINANCE" =
      Except.ok
        { exchange := "BINANCE", strategy_id := "SWING_V1"
          enabled := true, source := "default" } ∧
    ∃ out db',
      evaluate_pretrade_for_user settings₀ clock₀ db₀ user₀ "BINANCE" payload₀ =
        Except.ok (out, db') ∧
      out.passed = out.checks.all (fun c => c.passed) := by
  refine ⟨rfl, ?_⟩
  obtain ⟨out, db', h1, _, h3, _⟩ :=
    pretrade_checks_total_and_conjunctive settings₀ clock₀ db₀ user₀ "BINANCE" payload₀ _ rfl
  exact ⟨out, db', h1, h3⟩

lemma profile_by_name_cases {name : String} {p : RiskProfile}
    (h : profile_by_name name = some p) : p = PROFILE_MODEL2 ∨ p = PROFILE_LOOSE := by
  unfold profile_by_name at h
  split_ifs at h <;> first
    | exact Or.inl (Option.some.inj h).symm
    | exact Or.inr (Option.some.inj h).symm

lemma resolve_for_email_eq (st : Settings) (email : String) :
    resolve_risk_profile_for_email st email =
      if norm_email email ≠ "" ∧
          norm_email email = norm_email st.RISK_PROFILE_LOOSE_EMAIL
        then PROFILE_LOOSE
        else if norm_email email ≠ "" ∧
            norm_email email = norm_email st.RISK_PROFILE_MODEL2_EMAIL
          then PROFILE_MODEL2 else PROFILE_MODEL2 := rfl

lemma resolve_for_email_cases (st : Settings) (email : String) :
    resolve_risk_profile_for_email st email = PROFILE_MODEL2 ∨
      resolve_risk_profile_for_email st email = PROFILE_LOOSE := by
  rw [resolve_for_email_eq]
  split_ifs <;> simp

/-- C6: risk-profile resolution (modelled from the spec, the function
body being absent from the sources) is a pure function of the per-user
override row, the email and the static mapping, with precedence
override row > email mapping > hard-coded default; it is total (never
raises), always returns one of the two enumerated profiles, and depends
only on the user's override row, not the rest of the override table. -/
theorem resolve_risk_profile_precedence
    (st : Settings) (overrides : List RiskProfileOverride) (user_id email : String) :
    (resolve_risk_profile st overrides user_id email = PROFILE_MODEL2 ∨
      resolve_risk_profile st overrides user_id email = PROFILE_LOOSE) ∧
    (∀ row, overrides.find? (fun o => decide (o.user_id = user_id)) = some row →
      ∀ p, profile_by_name row.profile_name = some p →
        resolve_risk_profile st overrides user_id email = p) ∧
    (overrides.find? (fun o => decide (o.user_id = user_id)) = none →
      resolve_risk_profile st overrides user_id email =
        resolve_risk_profile_for_email st email) ∧
    (norm_email email ≠ "" ∧
        norm_email email = norm_email st.RISK_PROFILE_LOOSE_EMAIL →
      resolve_risk_profile_for_email st email = PROFILE_LOOSE) ∧
    (¬ (norm_email email ≠ "" ∧
        norm_email email = norm_email st.RISK_PROFILE_LOOSE_EMAIL) →
      resolve_risk_profile_for_email st email = PROFILE_MODEL2) ∧
    (∀ overrides₂ : List RiskProfileOverride,
      overrides₂.find? (fun o => decide (o.user_id = user_id)) =
          overrides.find? (fun o => decide (o.user_id = user_id)) →
        resolve_risk_profile st overrides₂ user_id email =
          resolve_risk_profile st overrides user_id email) := by
  refine ⟨?_, ?_, ?_, ?_, ?_, ?_⟩
  · rcases hf : overrides.find? (fun o => decide (o.user_id = user_id)) with _ | row
    · simp only [resolve_risk_profile, hf]
      exact resolve_for_email_cases st email
    · rcases hp : profile_by_name row.profile_name with _ | p
      · simp only [resolve_risk_profile, hf, hp]
        exact resolve_for_email_cases st email
      · simp only [resolve_risk_profile, hf, hp]
        exact profile_by_name_cases hp
  · intro row hf p hp
    simp only [resolve_risk_profile, hf, hp]
  · intro hf
    simp only [resolve_risk_profile, hf]
  · intro h
    rw [resolve_for_email_eq, if_pos h]
  · intro h
    rw [resolve_for_email_eq, if_neg h]
    split_ifs <;> rfl
  · intro overrides₂ h
    unfold resolve_risk_profile
    rw [h]

/-- Witness for C6: an override row naming the loose profile wins over
the email mapping and the default. -/
theorem resolve_risk_profile_precedence_witness :
    ([{ user_id := "u1", profile_name := "modelo_suelto_controlado" }] :
        List RiskProfileOverride).find? (fun o => decide (o.user_id = "u1")) =
      some { user_id := "u1", profile_name := "modelo_suelto_controlado" } ∧
    profile_by_name ("modelo_suelto_controlado") = some PROFILE_LOOSE ∧
    resolve_risk_profile settings₀
      [{ user_id := "u1", profile_name := "modelo_suelto_controlado" }]
      "u1" "trader@test.com" = PROFILE_LOOSE := by
  refine ⟨rfl, rfl, ?_⟩
  exact (resolve_risk_profile_precedence settings₀
    [{ user_id := "u1", profile_name := "modelo_suelto_controlado" }]
    "u1" "trader@test.com").2.1
    { user_id := "u1", profile_name := "modelo_suelto_controlado" } rfl PROFILE_LOOSE rfl

/-- Stand-in for the canonical (sorted-key, compact) JSON of the open
request payload `{"qty": qty, "signal_id": signal_id}`. -/
def canonical_open_payload (signal_id : String) (qty : ℚ) : String :=
  "\x7b\"qty\":" ++ toString qty ++ ",\"signal_id\":\"" ++ signal_id ++ "\"\x7d"

/-- Stand-in for `PositionOut.model_validate(p).model_dump()` serialized
to its canonical JSON string by the idempotency layer. -/
def position_out_json (p : Position) : String :=
  "position:" ++ p.id ++ ":" ++ p.symbol ++ ":" ++ toString p.qty

/-- Replace (or insert) the unique `(user_id, day)` daily-risk row — the
net effect on the table of the ORM mutating the fetched row in place, or
of `db.add` + `flush` of a fresh one. -/
def upsert_daily (table : List DailyRiskState) (dr : DailyRiskState) : List DailyRiskState :=
  if (table.find? (fun d => decide (d.user_id = dr.user_id ∧ d.day = dr.day))).isSome then
    table.map (fun d => if d.user_id = dr.user_id ∧ d.day = dr.day then dr else d)
  else table ++ [dr]

/-- The ORM effect of `s.status = new_status` on the signals table. -/
def update_signal_status (signals : List Signal) (id status : String) : List Signal :=
  signals.map (fun s => if s.id = id then { s with status := status } else s)

/-- The ORM effect of mutating the fetched position row in place. -/
def update_position (positions : List Position) (id : String) (p' : Position) :
    List Position :=
  positions.map (fun q => if q.id = id then p' else q)

/-- The cooldown predicate of `open_from_signal` (`api/positions.py`):
true when a previous trade exists and fewer minutes than the profile's
cooldown have elapsed since `max(coalesce(closed_at, opened_at))`. -/
def open_cooldown_hit (st : Settings) (clock : Clock) (db : Db) (user : User)
    (uid : String) : Bool :=
  match last_trade_at db.positions uid with
  | none => false
  | some t =>
      decide (clock.now_minutes - t <
        (resolve_risk_profile st db.risk_overrides user.id user.email).cooldown_between_trades_minutes)

/-- Today's daily-risk row as `open_from_signal` reads it: the existing
row or a fresh default one, with the resolved profile's limits
re-applied (`apply_profile_daily_limits`). -/
def open_daily_row (st : Settings) (clock : Clock) (db : Db) (user : User)
    (uid : String) : DailyRiskState :=
  apply_profile_daily_limits
    (match db.daily_risk.find?
        (fun d => decide (d.user_id = uid ∧ d.day = clock.today)) with
      | some d => d
      | none => DailyRiskState.new uid clock.today)
    (resolve_risk_profile st db.risk_overrides user.id user.email)

/-- The `open_from_signal` request: query params and the optional
`X-Idempotency-Key` header. -/
structure OpenRequest where
  signal_id : String
  qty : ℚ
  idempotency_key : Option String
deriving Repr, DecidableEq

/-- What a successful `open_from_signal` call returns: either the cached
idempotent response or the freshly created position. -/
inductive OpenOutcome where
  | cached (response_json : String)
  | opened (p : Position)
deriving Repr, DecidableEq

/-- `open_from_signal` of `api/positions.py`: idempotency replay, signal
validation (404 / 403 / 409 / 400), kill-switch, exposure caps, then the
risk gates (max open positions, cooldown, daily stop, max trades) in
source order — each risk gate a 409 paired with its own audit action via
`_log_and_raise_risk_block` — and finally position creation, signal
advancement to OPENED, the `position.open` audit row, commit, and the
idempotent response snapshot. -/
def open_from_signal (hash : String → String) (st : Settings) (clock : Clock)
    (db : Db) (user : User) (req : OpenRequest) :
    Except (ApiError × Db) (OpenOutcome × Db) :=
  let req_payload := canonical_open_payload req.signal_id req.qty
  match consume_idempotent_response hash db.idempotency_keys user.id
      "/positions/open_from_signal" req.idempotency_key req_payload with
  | Except.error e => Except.error (e, db)
  | Except.ok (some cached) => Except.ok (OpenOutcome.cached cached, db)
  | Except.ok none =>
      let profile := resolve_risk_profile st db.risk_overrides user.id user.email
      match db.signals.find? (fun s => decide (s.id = req.signal_id)) with
      | none => Except.error (ApiError.http 404 ("Signal not found"), db)
      | some s =>
          if s.user_id ≠ user.id then
            Except.error (ApiError.http 403 ("Cannot open another user's signal"), db)
          else if s.status ≠ "EXECUTING" then
            Except.error
              (ApiError.http 409 ("Signal status must be EXECUTING (got " ++ s.status ++ ")"),
                db)
          else
            match s.entry_price with
            | none => Except.error (ApiError.http 400 ("Signal missing entry_price"), db)
            | some entry =>
                let inferred_exchange := infer_exchange_from_symbol s.symbol
                match assert_trading_enabled st db user "position_open" inferred_exchange with
                | Except.error e => Except.error e
                | Except.ok _ =>
                match assert_exposure_limits st db user inferred_exchange s.symbol
                    req.qty entry with
                | Except.error e => Except.error e
                | Except.ok _ =>
                let open_positions := open_positions_for db.positions s.user_id
                if ((open_positions.length : ℤ) ≥ profile.max_open_positions) then
                  Except.error
                    (ApiError.http 409 ("Risk block: max open positions reached"),
                      log_audit_event db "position.open.blocked.max_open_positions"
                        user.id "risk")
                else
                if open_cooldown_hit st clock db user s.user_id then
                  Except.error
                    (ApiError.http 409 ("Risk block: cooldown active ("
                        ++ toString profile.cooldown_between_trades_minutes ++ "m)"),
                      log_audit_event db "position.open.blocked.cooldown" user.id "risk")
                else
                let dr := open_daily_row st clock db user s.user_id
                let db₁ := { db with daily_risk := upsert_daily db.daily_risk dr }
                if dr.realized_pnl_today ≤ dr.daily_stop then
                  Except.error
                    (ApiError.http 409 ("Risk block: daily stop reached"),
                      log_audit_event db₁ "position.open.blocked.daily_stop" user.id "risk")
                else if dr.trades_today ≥ dr.max_trades then
                  Except.error
                    (ApiError.http 409 ("Risk block: max trades reached"),
                      log_audit_event db₁ "position.open.blocked.max_trades" user.id "risk")
                else
                let p : Position :=
                  { id := toString db.next_position_id
                    user_id := s.user_id
                    signal_id := s.id
                    symbol := s.symbol
                    side := "LONG"
                    qty := req.qty
                    entry_price := entry
                    stop_loss := s.stop_loss
                    take_profit := s.take_profit
                    status := "OPEN"
                    opened_at := clock.now_minutes
                    closed_at := none
                    realized_pnl := none
                    fees := none }
                let db₂ :=
                  { db₁ with
                    positions := db₁.positions ++ [p]
                    signals := update_signal_status db₁.signals s.id "OPENED"
                    next_position_id := db.next_position_id + 1 }
                let db₃ := log_audit_event db₂ "position.open" user.id "position"
                match store_idempotent_response hash db₃.idempotency_keys user.id
                    "/positions/open_from_signal" req.idempotency_key req_payload
                    (position_out_json p) 200 with
                | Except.ok table' =>
                    Except.ok (OpenOutcome.opened p, { db₃ with idempotency_keys := table' })
                | Except.error e => Except.error (e, db₃)

/-- The `close_position` request: query params of `/positions/close`. -/
structure CloseRequest where
  position_id : String
  exit_price : ℚ
  fees : ℚ
deriving Repr, DecidableEq

/-- `close_position` of `api/positions.py`: ownership / state checks,
LONG realized PnL `(exit - entry) * qty - fees`, position transition to
CLOSED, signal to COMPLETED, daily-risk row upsert with profile limits
re-applied plus `trades_today += 1` and `realized_pnl_today += pnl`, the
`position.close` audit row, and a single commit. -/
def close_position (st : Settings) (clock : Clock) (db : Db) (user : User)
    (req : CloseRequest) : Except (ApiError × Db) (Position × Db) :=
  let profile := resolve_risk_profile st db.risk_overrides user.id user.email
  match db.positions.find? (fun q => decide (q.id = req.position_id)) with
  | none => Except.error (ApiError.http 404 ("Position not found"), db)
  | some p =>
      if p.user_id ≠ user.id then
        Except.error (ApiError.http 403 ("Cannot close another user's position"), db)
      else if p.status ≠ "OPEN" then
        Except.error
          (ApiError.http 409 ("Position status must be OPEN (got " ++ p.status ++ ")"), db)
      else
        let realized_pnl := (req.exit_price - p.entry_price) * p.qty - req.fees
        let p' : Position :=
          { p with
            fees := some req.fees
            realized_pnl := some realized_pnl
            status := "CLOSED"
            closed_at := some clock.now_minutes }
        let dr₀ :=
          match db.daily_risk.find?
              (fun d => decide (d.user_id = p.user_id ∧ d.day = clock.today)) with
          | some d => d
          | none => DailyRiskState.new p.user_id clock.today
        let dr₁ := apply_profile_daily_limits dr₀ profile
        let dr :=
          { dr₁ with
            trades_today := dr₁.trades_today + 1
            realized_pnl_today := dr₁.realized_pnl_today + realized_pnl }
        let db' :=
          log_audit_event
            { db with
              positions := update_position db.positions p.id p'
              signals := update_signal_status db.signals p.signal_id "COMPLETED"
              daily_risk := upsert_daily db.daily_risk dr }
            "position.close" user.id "position"
        Except.ok (p', db')

/-- The closed position row a successful `close_position` writes. -/
def closed_position (clock : Clock) (req : CloseRequest) (p : Position) : Position :=
  { p with
    fees := some req.fees
    realized_pnl := some ((req.exit_price - p.entry_price) * p.qty - req.fees)
    status := "CLOSED"
    closed_at := some clock.now_minutes }

/-- The daily-risk row a successful `close_position` writes: today's row
(or a fresh one) with the profile limits re-applied, `trades_today`
incremented, and the realized PnL added. -/
def close_daily_row (st : Settings) (clock : Clock) (db : Db) (user : User)
    (req : CloseRequest) (p : Position) : DailyRiskState :=
  let profile := resolve_risk_profile st db.risk_overrides user.id user.email
  let dr₀ :=
    match db.daily_risk.find?
        (fun d => decide (d.user_id = p.user_id ∧ d.day = clock.today)) with
    | some d => d
    | none => DailyRiskState.new p.user_id clock.today
  let dr₁ := apply_profile_daily_limits dr₀ profile
  { dr₁ with
    trades_today := dr₁.trades_today + 1
    realized_pnl_today :=
      dr₁.realized_pnl_today + ((req.exit_price - p.entry_price) * p.qty - req.fees) }

/-- The database state a successful `close_position` commits. -/
def close_result_db (st : Settings) (clock : Clock) (db : Db) (user : User)
    (req : CloseRequest) (p : Position) : Db :=
  log_audit_event
    { db with
      positions := update_position db.positions p.id (closed_position clock req p)
      signals := update_signal_status db.signals p.signal_id "COMPLETED"
      daily_risk := upsert_daily db.daily_risk (close_daily_row st clock db user req p) }
    "position.close" user.id "position"

lemma close_position_ok (st : Settings) (clock : Clock) (db : Db) (user : User)
    (req : CloseRequest) (p : Position)
    (hfind : db.positions.find? (fun q => decide (q.id = req.position_id)) = some p)
    (howner : p.user_id = user.id) (hopen : p.status = "OPEN") :
    close_position st clock db user req =
      Except.ok (closed_position clock req p, close_result_db st clock db user req p) := by
  simp only [close_position, hfind, howner, hopen, closed_position, close_result_db,
    close_daily_row]
  simp

lemma find?_map_upsert (table : List DailyRiskState) (dr : DailyRiskState)
    (hex : (table.find?
      (fun d => decide (d.user_id = dr.user_id ∧ d.day = dr.day))).isSome) :
    (table.map (fun d => if d.user_id = dr.user_id ∧ d.day = dr.day then dr else d)).find?
      (fun d => decide (d.user_id = dr.user_id ∧ d.day = dr.day)) = some dr := by
  induction table with
  | nil => simp at hex
  | cons d ds ih =>
      by_cases hd : d.user_id = dr.user_id ∧ d.day = dr.day
      · simp only [List.map_cons, if_pos hd]
        exact List.find?_cons_of_pos _ (by simp)
      · simp only [List.map_cons, if_neg hd]
        rw [List.find?_cons_of_neg _ (by simpa using hd)]
        apply ih
        rw [List.find?_cons_of_neg _ (by simpa using hd)] at hex
        exact hex

lemma upsert_daily_find (table : List DailyRiskState) (dr : DailyRiskState) :
    (upsert_daily table dr).find?
      (fun d => decide (d.user_id = dr.user_id ∧ d.day = dr.day)) = some dr := by
  unfold upsert_daily
  split_ifs with hex
  · exact find?_map_upsert table dr hex
  · rw [find?_append_of_none _ (Option.not_isSome_iff_eq_none.mp hex)]
    exact List.find?_cons_of_pos _ (by simp)

lemma close_daily_row_key (st : Settings) (clock : Clock) (db : Db) (user : User)
    (req : CloseRequest) (p : Position) :
    (close_daily_row st clock db user req p).user_id = p.user_id ∧
    (close_daily_row st clock db user req p).day = clock.today := by
  unfold close_daily_row apply_profile_daily_limits
  rcases hf : db.daily_risk.find?
      (fun d => decide (d.user_id = p.user_id ∧ d.day = clock.today)) with _ | d
  · simp only [hf]
    simp [DailyRiskState.new]
  · have h := List.find?_some hf
    simp only [decide_eq_true_eq] at h
    simp only [hf]
    simp [h.1, h.2]

/-- `trades_today` of today's daily-risk row before an operation (0 when
the row does not exist yet). -/
def daily_trades_before (db : Db) (user_id : String) (clock : Clock) : ℤ :=
  match db.daily_risk.find?
      (fun d => decide (d.user_id = user_id ∧ d.day = clock.today)) with
  | some d => d.trades_today
  | none => 0

/-- `realized_pnl_today` of today's daily-risk row before an operation. -/
def daily_pnl_before (db : Db) (user_id : String) (clock : Clock) : ℚ :=
  match db.daily_risk.find?
      (fun d => decide (d.user_id = user_id ∧ d.day = clock.today)) with
  | some d => d.realized_pnl_today
  | none => 0

/-- C3: for every close of an OPEN position owned by the caller, the
realized PnL written is exactly `(exit_price - entry_price) * qty - fees`
(so entry=100, qty=2, exit=110, fees=1 yields exactly 19), the position
becomes CLOSED, the originating signal becomes COMPLETED, and today's
DailyRiskState row (created if absent) has `trades_today` incremented by
1 and `realized_pnl_today` incremented by the realized PnL. -/
theorem close_position_pnl_and_updates
    (st : Settings) (clock : Clock) (db : Db) (user : User) (req : CloseRequest)
    (p : Position)
    (hfind : db.positions.find? (fun q => decide (q.id = req.position_id)) = some p)
    (howner : p.user_id = user.id) (hopen : p.status = "OPEN") :
    ∃ p' db',
      close_position st clock db user req = Except.ok (p', db') ∧
      p'.realized_pnl = some ((req.exit_price - p.entry_price) * p.qty - req.fees) ∧
      p'.status = "CLOSED" ∧
      p'.fees = some req.fees ∧
      (req.exit_price = 110 → p.entry_price = 100 → p.qty = 2 → req.fees = 1 →
        p'.realized_pnl = some 19) ∧
      (∀ s ∈ db'.signals, s.id = p.signal_id → s.status = "COMPLETED") ∧
      (∃ dr',
        db'.daily_risk.find?
            (fun d => decide (d.user_id = p.user_id ∧ d.day = clock.today)) = some dr' ∧
        dr'.trades_today = daily_trades_before db p.user_id clock + 1 ∧
        dr'.realized_pnl_today =
          daily_pnl_before db p.user_id clock +
            ((req.exit_price - p.entry_price) * p.qty - req.fees)) := by
  refine ⟨closed_position clock req p, close_result_db st clock db user req p,
    close_position_ok st clock db user req p hfind howner hopen, rfl, rfl, rfl, ?_, ?_, ?_⟩
  · intro h₁ h₂ h₃ h₄
    show some ((req.exit_price - p.entry_price) * p.qty - req.fees) = some 19
    rw [h₁, h₂, h₃, h₄]
    norm_num
  · intro s hs hid
    have hs' : s ∈ update_signal_status db.signals p.signal_id "COMPLETED" := hs
    unfold update_signal_status at hs'
    obtain ⟨t, _, rfl⟩ := List.mem_map.mp hs'
    by_cases h : t.id = p.signal_id
    · simp [h]
    · rw [if_neg h] at hid ⊢
      exact absurd hid h
  · have hk := close_daily_row_key st clock db user req p
    have hfind' := upsert_daily_find db.daily_risk (close_daily_row st clock db user req p)
    rw [hk.1, hk.2] at hfind'
    refine ⟨close_daily_row st clock db user req p, hfind', ?_, ?_⟩
    · unfold close_daily_row apply_profile_daily_limits daily_trades_before
      rcases hf : db.daily_risk.find?
          (fun d => decide (d.user_id = p.user_id ∧ d.day = clock.today)) with _ | d <;>
        simp only [hf] <;> rfl
    · unfold close_daily_row apply_profile_daily_limits daily_pnl_before
      rcases hf : db.daily_risk.find?
          (fun d => decide (d.user_id = p.user_id ∧ d.day = clock.today)) with _ | d <;>
        simp only [hf] <;> rfl

/-- Sample OPEN position used by witnesses: entry 100, qty 2. -/
def position₁ : Position :=
  { id := "p1", user_id := "u1", signal_id := "s1", symbol := "BTCUSDT", side := "LONG"
    qty := 2, entry_price := 100, stop_loss := none, take_profit := none
    status := "OPEN", opened_at := 0, closed_at := none, realized_pnl := none, fees := none }

/-- Sample OPENED signal the sample position originated from. -/
def signal₁ : Signal :=
  { id := "s1", user_id := "u1", symbol := "BTCUSDT", entry_price := some 100
    stop_loss := none, take_profit := none, status := "OPENED" }

/-- Witness for C3: closing the sample position at exit 110 with fees 1
realizes exactly 19. -/
theorem close_position_pnl_and_updates_witness :
    ({ db₀ with positions := [position₁], signals := [signal₁] } : Db).positions.find?
        (fun q => decide (q.id = "p1")) = some position₁ ∧
    position₁.user_id = user₀.id ∧ position₁.status = "OPEN" ∧
    ∃ p' db',
      close_position settings₀ clock₀ { db₀ with positions := [position₁], signals := [signal₁] }
          user₀ { position_id := "p1", exit_price := 110, fees := 1 } =
        Except.ok (p', db') ∧
      p'.realized_pnl = some 19 := by
  refine ⟨rfl, rfl, rfl, ?_⟩
  obtain ⟨p', db', hc, _, _, _, hinst, _, _⟩ :=
    close_position_pnl_and_updates settings₀ clock₀
      { db₀ with positions := [position₁], signals := [signal₁] } user₀
      { position_id := "p1", exit_price := 110, fees := 1 } position₁ rfl rfl rfl
  exact ⟨p', db', hc, hinst rfl rfl rfl rfl⟩

/-- Settings mapping `loose@test.com` to the loose profile. -/
def settings_loose : Settings :=
  { settings₀ with RISK_PROFILE_LOOSE_EMAIL := "loose@test.com" }

/-- C5 (counterexample): `get_or_create_daily_state` — the daily-state
creation helper the claim points at — seeds `daily_stop = -5.0` and
`max_trades = 3` as fixed literals without consulting any profile; for a
user whose resolved profile is the loose one the claim demands
`daily_stop = -abs(2.00) = -2` and `max_trades = 4`. -/
theorem daily_state_seed_counterexample :
    (get_or_create_daily_state [] "u1" 20000).1.daily_stop = -5 ∧
    (get_or_create_daily_state [] "u1" 20000).1.max_trades = 3 ∧
    resolve_risk_profile settings_loose [] "u1" "loose@test.com" = PROFILE_LOOSE ∧
    -|PROFILE_LOOSE.max_daily_loss_pct| = -2 ∧
    PROFILE_LOOSE.max_trades_per_day = 4 ∧
    ((-5 : ℚ) ≠ -2) ∧ ((3 : ℤ) ≠ 4) := by
  refine ⟨rfl, rfl, rfl, ?_, rfl, by norm_num, by decide⟩
  norm_num [PROFILE_LOOSE]

/-- C5 (amended): DailyRiskState rows are created with the fixed model
defaults (`trades_today = 0`, `realized_pnl_today = 0.0`,
`daily_stop = -5.0`, `max_trades = 3`); `apply_profile_daily_limits`
overwrites `daily_stop` with `-abs(profile.max_daily_loss_pct)` and
`max_trades` with `profile.max_trades_per_day` while leaving the
counters untouched, and the position endpoints apply it right after
creation and on every subsequent access, so the row each risk check
reads always carries the currently resolved profile's thresholds; the
standalone `get_or_create_daily_state` helper seeds the fixed defaults
without consulting the profile. -/
theorem daily_state_thresholds_follow_profile :
    (∀ (table : List DailyRiskState) (u : String) (day : ℤ),
      table.find? (fun d => decide (d.user_id = u ∧ d.day = day)) = none →
        (get_or_create_daily_state table u day).1 =
          { user_id := u, day := day, trades_today := 0, realized_pnl_today := 0
            daily_stop := -5, max_trades := 3 }) ∧
    (∀ (dr : DailyRiskState) (p : RiskProfile),
      (apply_profile_daily_limits dr p).daily_stop = -|p.max_daily_loss_pct| ∧
      (apply_profile_daily_limits dr p).max_trades = p.max_trades_per_day ∧
      (apply_profile_daily_limits dr p).trades_today = dr.trades_today ∧
      (apply_profile_daily_limits dr p).realized_pnl_today = dr.realized_pnl_today) ∧
    (∀ (st : Settings) (clock : Clock) (db : Db) (user : User) (req : CloseRequest)
        (p : Position),
      db.positions.find? (fun q => decide (q.id = req.position_id)) = some p →
      p.user_id = user.id → p.status = "OPEN" →
      ∃ p' db' dr',
        close_position st clock db user req = Except.ok (p', db') ∧
        db'.daily_risk.find?
            (fun d => decide (d.user_id = p.user_id ∧ d.day = clock.today)) = some dr' ∧
        dr'.daily_stop =
          -|(resolve_risk_profile st db.risk_overrides user.id user.email).max_daily_loss_pct| ∧
        dr'.max_trades =
          (resolve_risk_profile st db.risk_overrides user.id user.email).max_trades_per_day) := by
  refine ⟨?_, ?_, ?_⟩
  · intro table u day h
    unfold get_or_create_daily_state
    simp only [h]
  · intro dr p
    exact ⟨rfl, rfl, rfl, rfl⟩
  · intro st clock db user req p hfind howner hopen
    have hk := close_daily_row_key st clock db user req p
    have hfind' := upsert_daily_find db.daily_risk (close_daily_row st clock db user req p)
    rw [hk.1, hk.2] at hfind'
    refine ⟨closed_position clock req p, close_result_db st clock db user req p,
      close_daily_row st clock db user req p,
      close_position_ok st clock db user req p hfind howner hopen, hfind', ?_, ?_⟩
    · unfold close_daily_row apply_profile_daily_limits
      rcases hf : db.daily_risk.find?
          (fun d => decide (d.user_id = p.user_id ∧ d.day = clock.today)) with _ | d <;>
        simp only [hf]
    · unfold close_daily_row apply_profile_daily_limits
      rcases hf : db.daily_risk.find?
          (fun d => decide (d.user_id = p.user_id ∧ d.day = clock.today)) with _ | d <;>
        simp only [hf]

/-- Witness for C5's amended statement: fresh-day creation plus a close
that leaves today's row carrying the default profile's thresholds. -/
theorem daily_state_thresholds_follow_profile_witness :
    (get_or_create_daily_state [] "u1" 20000).1 =
      { user_id := "u1", day := 20000, trades_today := 0, realized_pnl_today := 0
        daily_stop := -5, max_trades := 3 } ∧
    ∃ p' db' dr',
      close_position settings₀ clock₀
          { db₀ with positions := [position₁], signals := [signal₁] } user₀
          { position_id := "p1", exit_price := 110, fees := 1 } =
        Except.ok (p', db') ∧
      db'.daily_risk.find?
          (fun d => decide (d.user_id = position₁.user_id ∧ d.day = clock₀.today)) =
        some dr' ∧
      dr'.daily_stop =
        -|(resolve_risk_profile settings₀
            ({ db₀ with positions := [position₁], signals := [signal₁] } : Db).risk_overrides
            user₀.id user₀.email).max_daily_loss_pct| := by
  refine ⟨(daily_state_thresholds_follow_profile).1 [] "u1" 20000 rfl, ?_⟩
  obtain ⟨p', db', dr', h1, h2, h3, _⟩ :=
    (daily_state_thresholds_follow_profile).2.2 settings₀ clock₀
      { db₀ with positions := [position₁], signals := [signal₁] } user₀
      { position_id := "p1", exit_price := 110, fees := 1 } position₁ rfl rfl rfl
  exact ⟨p', db', dr', h1, h2, h3⟩

/-- Stand-in for the canonical JSON of a pretrade request body. -/
def canonical_pretrade_payload (p : PretradeCheckRequest) : String :=
  "pretrade:" ++ p.symbol ++ ":" ++ p.side ++ ":" ++ toString p.qty ++ ":"
    ++ toString p.rr_estimate ++ ":" ++ p.trend_tf ++ ":" ++ p.signal_tf ++ ":" ++ p.timing_tf

/-- Stand-in for the serialized pretrade response cached by the
idempotency layer. -/
def pretrade_response_json (out : PretradeEvalOut) : String :=
  "pretrade-result:" ++ out.strategy_id ++ ":" ++ toString out.passed

/-- A pretrade-check endpoint result: cached replay or fresh evaluation. -/
inductive PretradeEndpointOut where
  | cached (response_json : String)
  | fresh (out : PretradeEvalOut)
deriving Repr, DecidableEq

/-- The shared shape of `pretrade_binance_check` / `pretrade_ibkr_check`
(`api/ops.py`), parametrized by the literal exchange: kill-switch
assert, exposure assert, idempotent replay, evaluation, idempotent
store. An uncaught `ValueError` would surface as a 500 (unreachable for
the two literal exchanges). -/
def pretrade_check_endpoint (hash : String → String) (st : Settings) (clock : Clock)
    (db : Db) (user : User) (exchange : String) (payload : PretradeCheckRequest)
    (idempotency_key : Option String) : Except (ApiError × Db) (PretradeEndpointOut × Db) :=
  match assert_trading_enabled st db user "pretrade_check" exchange with
  | Except.error e => Except.error e
  | Except.ok _ =>
  match assert_exposure_limits st db user exchange payload.symbol payload.qty 0 with
  | Except.error e => Except.error e
  | Except.ok _ =>
  let endpoint := "/ops/execution/pretrade/" ++ py_lower exchange ++ "/check"
  let req_payload := canonical_pretrade_payload payload
  match consume_idempotent_response hash db.idempotency_keys user.id endpoint
      idempotency_key req_payload with
  | Except.error e => Except.error (e, db)
  | Except.ok (some cached) => Except.ok (PretradeEndpointOut.cached cached, db)
  | Except.ok none =>
      match evaluate_pretrade_for_user st clock db user exchange payload with
      | Except.error e => Except.error (ApiError.http 500 e, db)
      | Except.ok (result, db₁) =>
          match store_idempotent_response hash db₁.idempotency_keys user.id endpoint
              idempotency_key req_payload (pretrade_response_json result) 200 with
          | Except.ok table' =>
              Except.ok (PretradeEndpointOut.fresh result,
                { db₁ with idempotency_keys := table' })
          | Except.error e => Except.error (e, db₁)

/-- `_assert_exchange_enabled` of `api/ops.py`: audit
`execution.blocked.exchange_disabled` and raise 403 when the user's
strategy assignment disables the exchange. -/
def assert_exchange_enabled (db : Db) (user : User) (exchange : String) :
    Except (ApiError × Db) Unit :=
  match resolve_strategy_for_user_exchange db.strategy_assignments user.id exchange with
  | Except.error e => Except.error (ApiError.http 500 e, db)
  | Except.ok d =>
      if d.enabled then Except.ok ()
      else
        Except.error
          (ApiError.http 403 ("Exchange " ++ exchange ++ " is disabled for this user"),
            log_audit_event db "execution.blocked.exchange_disabled" user.id "execution")

/-- Stand-in for the canonical JSON of a test-order request body. -/
def canonical_test_order_payload (symbol side : String) (qty : ℚ) : String :=
  "testorder:" ++ symbol ++ ":" ++ side ++ ":" ++ toString qty

/-- A test-order endpoint result: cached replay or fresh adapter response. -/
inductive TestOrderOutcome where
  | cached (response_json : String)
  | fresh (response_json : String)
deriving Repr, DecidableEq

/-- The shared shape of `execution_binance_test_order` /
`execution_ibkr_test_order` (`api/ops.py`). The outbound adapter call is
an external collaborator; its serialized response is the `exec_result`
parameter. -/
def test_order_endpoint (hash : String → String) (st : Settings) (db : Db) (user : User)
    (exchange symbol side : String) (qty : ℚ) (idempotency_key : Option String)
    (exec_result : String) : Except (ApiError × Db) (TestOrderOutcome × Db) :=
  match assert_trading_enabled st db user "test_order" exchange with
  | Except.error e => Except.error e
  | Except.ok _ =>
  match assert_exchange_enabled db user exchange with
  | Except.error e => Except.error e
  | Except.ok _ =>
  match assert_exposure_limits st db user exchange symbol qty 0 with
  | Except.error e => Except.error e
  | Except.ok _ =>
  let endpoint := "/ops/execution/" ++ py_lower exchange ++ "/test-order"
  let req_payload := canonical_test_order_payload symbol side qty
  match consume_idempotent_response hash db.idempotency_keys user.id endpoint
      idempotency_key req_payload with
  | Except.error e => Except.error (e, db)
  | Except.ok (some cached) => Except.ok (TestOrderOutcome.cached cached, db)
  | Except.ok none =>
      match store_idempotent_response hash db.idempotency_keys user.id endpoint
          idempotency_key req_payload exec_result 200 with
      | Except.ok table' =>
          Except.ok (TestOrderOutcome.fresh exec_result,
            { db with idempotency_keys := table' })
      | Except.error e => Except.error (e, db)

/-- The runtime-setting row that turns the kill-switch off. -/
def trading_disabled_row : RuntimeSetting :=
  { key := TRADING_ENABLED_KEY, bool_value := some false }

/-- C9 (counterexample): with the kill-switch disabled, an open call
whose signal does not exist is rejected with 404 "Signal not found" and
no audit row at all — not with a 409-class risk block paired with an
`execution.blocked.kill_switch` audit entry, refuting "every open ...
call is rejected with a risk-block (409-class) error paired with an
audit entry whose action is execution.blocked.kill_switch". -/
theorem kill_switch_open_counterexample :
    get_trading_enabled settings₀ [trading_disabled_row] = false ∧
    open_from_signal id settings₀ clock₀
        { db₀ with runtime_settings := [trading_disabled_row] } user₀
        { signal_id := "missing", qty := 1, idempotency_key := none } =
      Except.error (ApiError.http 404 ("Signal not found"),
        { db₀ with runtime_settings := [trading_disabled_row] }) ∧
    ({ db₀ with runtime_settings := [trading_disabled_row] } : Db).audit_log = [] :=
  ⟨rfl, rfl, rfl⟩

/-- C9 (amended): the kill-switch reads the runtime-setting row and
falls back to the static-config default when the row or its value is
unset; whenever it is disabled, every pretrade-check and test-order call
and every open call that passes idempotency replay and signal validation
is rejected with a 409 error paired with an
`execution.blocked.kill_switch` audit entry, and the rejected call
creates no position (invalid-signal open calls are instead rejected by
the earlier 404/403/409/400 signal checks without that audit entry, and
a cached idempotent replay of an open is returned, not rejected). -/
theorem kill_switch_blocks_trading_paths
    (hash : String → String) (st : Settings) (clock : Clock) (db : Db) (user : User)
    (exchange : String) (payload : PretradeCheckRequest) (idk : Option String)
    (symbol side : String) (qty : ℚ) (exec_result : String)
    (req : OpenRequest) (s : Signal) (entry : ℚ)
    (hdisabled : get_trading_enabled st db.runtime_settings = false)
    (hconsume : consume_idempotent_response hash db.idempotency_keys user.id
      "/positions/open_from_signal" req.idempotency_key
      (canonical_open_payload req.signal_id req.qty) = Except.ok none)
    (hsig : db.signals.find? (fun s' => decide (s'.id = req.signal_id)) = some s)
    (howner : s.user_id = user.id) (hexec : s.status = "EXECUTING")
    (hentry : s.entry_price = some entry) :
    (∀ rows : List RuntimeSetting,
      rows.find? (fun r => decide (r.key = TRADING_ENABLED_KEY)) = none →
        get_trading_enabled st rows = st.TRADING_ENABLED_DEFAULT) ∧
    (∀ (rows : List RuntimeSetting) (row : RuntimeSetting),
      rows.find? (fun r => decide (r.key = TRADING_ENABLED_KEY)) = some row →
        row.bool_value = none →
        get_trading_enabled st rows = st.TRADING_ENABLED_DEFAULT) ∧
    (∀ (rows : List RuntimeSetting) (row : RuntimeSetting) (b : Bool),
      rows.find? (fun r => decide (r.key = TRADING_ENABLED_KEY)) = some row →
        row.bool_value = some b →
        get_trading_enabled st rows = b) ∧
    pretrade_check_endpoint hash st clock db user exchange payload idk =
      Except.error
        (ApiError.http 409 ("Trading is globally disabled by admin kill-switch"),
          log_audit_event db "execution.blocked.kill_switch" user.id "execution") ∧
    test_order_endpoint hash st db user exchange symbol side qty idk exec_result =
      Except.error
        (ApiError.http 409 ("Trading is globally disabled by admin kill-switch"),
          log_audit_event db "execution.blocked.kill_switch" user.id "execution") ∧
    open_from_signal hash st clock db user req =
      Except.error
        (ApiError.http 409 ("Trading is globally disabled by admin kill-switch"),
          log_audit_event db "execution.blocked.kill_switch" user.id "execution") ∧
    (log_audit_event db "execution.blocked.kill_switch" user.id "execution").positions =
      db.positions := by
  refine ⟨?_, ?_, ?_, ?_, ?_, ?_, rfl⟩
  · intro rows h
    unfold get_trading_enabled
    simp only [h]
  · intro rows row h1 h2
    unfold get_trading_enabled
    simp only [h1, h2]
  · intro rows row b h1 h2
    unfold get_trading_enabled
    simp only [h1, h2]
  · simp [pretrade_check_endpoint, assert_trading_enabled, hdisabled]
  · simp [test_order_endpoint, assert_trading_enabled, hdisabled]
  · simp only [open_from_signal, hconsume, hsig, howner, hexec, hentry]
    simp [assert_trading_enabled, hdisabled]

/-- An EXECUTING signal with an entry price, for witnesses. -/
def signal_exec : Signal :=
  { id := "s1", user_id := "u1", symbol := "BTCUSDT", entry_price := some 100
    stop_loss := none, take_profit := none, status := "EXECUTING" }

/-- Witness for C9: with the kill-switch row set to false, a valid open
request is rejected 409 with the kill-switch audit row. -/
theorem kill_switch_blocks_trading_paths_witness :
    get_trading_enabled settings₀
        ({ db₀ with runtime_settings := [trading_disabled_row], signals := [signal_exec] } :
          Db).runtime_settings = false ∧
    ({ db₀ with runtime_settings := [trading_disabled_row], signals := [signal_exec] } :
        Db).signals.find?
      (fun s' => decide (s'.id = "s1")) = some signal_exec ∧
    open_from_signal id settings₀ clock₀
        { db₀ with runtime_settings := [trading_disabled_row], signals := [signal_exec] }
        user₀ { signal_id := "s1", qty := 1, idempotency_key := none } =
      Except.error
        (ApiError.http 409 ("Trading is globally disabled by admin kill-switch"),
          log_audit_event
            { db₀ with runtime_settings := [trading_disabled_row], signals := [signal_exec] }
            "execution.blocked.kill_switch" user₀.id "execution") := by
  refine ⟨rfl, rfl, ?_⟩
  exact (kill_switch_blocks_trading_paths id settings₀ clock₀
    { db₀ with runtime_settings := [trading_disabled_row], signals := [signal_exec] }
    user₀ "BINANCE" payload₀ none "BTCUSDT" "BUY" 1 "r"
    { signal_id := "s1", qty := 1, idempotency_key := none } signal_exec 100
    rfl rfl rfl rfl rfl rfl).2.2.2.2.2.1

lemma assert_trading_enabled_error {st : Settings} {db : Db} {user : User}
    {a b : String} {e : ApiError × Db}
    (h : assert_trading_enabled st db user a b = Except.error e) :
    e.2 = log_audit_event db "execution.blocked.kill_switch" user.id "execution" := by
  unfold assert_trading_enabled at h
  split_ifs at h
  injection h with h'
  rw [← h']

lemma assert_exposure_limits_error {st : Settings} {db : Db} {user : User}
    {ex sym : String} {qty pe : ℚ} {e : ApiError × Db}
    (h : assert_exposure_limits st db user ex sym qty pe = Except.error e) :
    e.2.positions = db.positions ∧ e.2.risk_overrides = db.risk_overrides := by
  unfold assert_exposure_limits at h
  dsimp only at h
  split_ifs at h <;> (injection h with h'; rw [← h']; exact ⟨rfl, rfl⟩)

/-- One position-lifecycle operation of the open/close gate. -/
inductive TradeOp where
  | openOp (clock : Clock) (req : OpenRequest)
  | closeOp (clock : Clock) (req : CloseRequest)
deriving Repr, DecidableEq

/-- Run one operation: the committed database state, whether the handler
returned a success or raised. -/
def run_op (hash : String → String) (st : Settings) (user : User) (db : Db)
    (op : TradeOp) : Db :=
  match op with
  | TradeOp.openOp clock req =>
      match open_from_signal hash st clock db user req with
      | Except.ok (_, db') => db'
      | Except.error (_, db') => db'
  | TradeOp.closeOp clock req =>
      match close_position st clock db user req with
      | Except.ok (_, db') => db'
      | Except.error (_, db') => db'

/-- Run a sequence of operations by the same user. -/
def run_ops (hash : String → String) (st : Settings) (user : User) (db : Db)
    (ops : List TradeOp) : Db :=
  ops.foldl (run_op hash st user) db

lemma count_open_update_le (positions : List Position) (pid : String) (p' : Position)
    (u : String) (h : p'.status ≠ "OPEN") :
    (open_positions_for (update_position positions pid p') u).length ≤
      (open_positions_for positions u).length := by
  unfold open_positions_for update_position
  rw [← List.countP_eq_length_filter, ← List.countP_eq_length_filter, List.countP_map]
  apply List.countP_mono_left
  intro q _ hq
  simp only [Function.comp] at hq
  by_cases hid : q.id = pid
  · simp only [hid, if_pos, decide_eq_true_eq] at hq
    exact absurd hq.2 h
  · simp only [if_neg hid] at hq
    exact hq

lemma count_open_append (positions : List Position) (p : Position) (u : String) :
    (open_positions_for (positions ++ [p]) u).length =
      (open_positions_for positions u).length +
        (if p.user_id = u ∧ p.status = "OPEN" then 1 else 0) := by
  unfold open_positions_for
  rw [List.filter_append, List.length_append]
  congr 1
  by_cases hp : p.user_id = u ∧ p.status = "OPEN"
  · simp [hp]
  · simp [hp]

/-- The OPEN-position count of one user. -/
def count_open (db : Db) (u : String) : ℕ :=
  (open_positions_for db.positions u).length

lemma log_audit_positions (db : Db) (action uid et : String) :
    (log_audit_event db action uid et).positions = db.positions := rfl

lemma store_tail (hash : String → String) (db₃ : Db) (p : Position)
    (uid ep : String) (key : Option String) (pay resp : String) (code : ℤ) :
    (match (match store_idempotent_response hash db₃.idempotency_keys uid ep key
          pay resp code with
        | Except.ok table' =>
            Except.ok (OpenOutcome.opened p, { db₃ with idempotency_keys := table' })
        | Except.error e => Except.error (e, db₃)) with
      | Except.ok (_, db') => db'
      | Except.error (_, db') => db').positions = db₃.positions ∧
    (match (match store_idempotent_response hash db₃.idempotency_keys uid ep key
          pay resp code with
        | Except.ok table' =>
            Except.ok (OpenOutcome.opened p, { db₃ with idempotency_keys := table' })
        | Except.error e => Except.error (e, db₃)) with
      | Except.ok (_, db') => db'
      | Except.error (_, db') => db').risk_overrides = db₃.risk_overrides := by
  rcases hst : store_idempotent_response hash db₃.idempotency_keys uid ep key
      pay resp code with e | t
  · simp only [hst]
    exact ⟨by trivial, by trivial⟩
  · simp only [hst]
    exact ⟨by trivial, by trivial⟩

lemma open_step_count (hash : String → String) (st : Settings) (clock : Clock)
    (db : Db) (user : User) (req : OpenRequest) :
    (run_op hash st user db (TradeOp.openOp clock req)).risk_overrides =
      db.risk_overrides ∧
    ∀ u : String,
      count_open (run_op hash st user db (TradeOp.openOp clock req)) u ≤
        count_open db u ∨
      ((count_open db u : ℤ) <
          (resolve_risk_profile st db.risk_overrides user.id user.email).max_open_positions ∧
        count_open (run_op hash st user db (TradeOp.openOp clock req)) u =
          count_open db u + 1) := by
  unfold run_op open_from_signal
  dsimp only
  rcases hc : consume_idempotent_response hash db.idempotency_keys user.id
      "/positions/open_from_signal" req.idempotency_key
      (canonical_open_payload req.signal_id req.qty) with e | o
  · simp only [hc]
    exact ⟨by trivial, fun u => Or.inl le_rfl⟩
  · rcases o with _ | cached
    · simp only [hc]
      rcases hs : db.signals.find? (fun s' => decide (s'.id = req.signal_id)) with _ | s
      · simp only [hs]
        exact ⟨by trivial, fun u => Or.inl le_rfl⟩
      · simp only [hs]
        by_cases h1 : s.user_id ≠ user.id
        · rw [if_pos h1]
          exact ⟨by trivial, fun u => Or.inl le_rfl⟩
        · rw [if_neg h1]
          by_cases h2 : s.status ≠ "EXECUTING"
          · rw [if_pos h2]
            exact ⟨by trivial, fun u => Or.inl le_rfl⟩
          · rw [if_neg h2]
            rcases he : s.entry_price with _ | entry
            · simp only [he]
              exact ⟨by trivial, fun u => Or.inl le_rfl⟩
            · simp only [he]
              rcases ht : assert_trading_enabled st db user "position_open"
                  (infer_exchange_from_symbol s.symbol) with e | u'
              · simp only [ht]
                have hE := assert_trading_enabled_error ht
                exact ⟨by rw [hE]; rfl, fun u => Or.inl (le_of_eq (by rw [hE]; rfl))⟩
              · simp only [ht]
                rcases hx : assert_exposure_limits st db user
                    (infer_exchange_from_symbol s.symbol) s.symbol req.qty entry with e | u''
                · simp only [hx]
                  have hE := assert_exposure_limits_error hx
                  refine ⟨hE.2, fun u => Or.inl (le_of_eq ?_)⟩
                  unfold count_open open_positions_for
                  rw [hE.1]
                · simp only [hx]
                  by_cases hm : ((open_positions_for db.positions s.user_id).length : ℤ) ≥
                      (resolve_risk_profile st db.risk_overrides user.id
                        user.email).max_open_positions
                  · rw [if_pos hm]
                    exact ⟨by trivial, fun u => Or.inl le_rfl⟩
                  · rw [if_neg hm]
                    by_cases hcd : open_cooldown_hit st clock db user s.user_id = true
                    · rw [if_pos hcd]
                      exact ⟨by trivial, fun u => Or.inl le_rfl⟩
                    · rw [if_neg hcd]
                      by_cases hds : (open_daily_row st clock db user
                            s.user_id).realized_pnl_today ≤
                          (open_daily_row st clock db user s.user_id).daily_stop
                      · rw [if_pos hds]
                        exact ⟨by trivial, fun u => Or.inl le_rfl⟩
                      · rw [if_neg hds]
                        by_cases hmt : (open_daily_row st clock db user
                              s.user_id).trades_today ≥
                            (open_daily_row st clock db user s.user_id).max_trades
                        · rw [if_pos hmt]
                          exact ⟨by trivial, fun u => Or.inl le_rfl⟩
                        · rw [if_neg hmt]
                          constructor
                          · rw [(store_tail _ _ _ _ _ _ _ _ _).2]
                            rfl
                          · intro u
                            unfold count_open
                            rw [(store_tail _ _ _ _ _ _ _ _ _).1, log_audit_positions]
                            dsimp only
                            rw [count_open_append]
                            by_cases hu : s.user_id = u
                            · rw [if_pos (show _ ∧ _ from ⟨hu, rfl⟩)]
                              refine Or.inr ⟨?_, rfl⟩
                              rw [← hu]
                              exact lt_of_not_ge hm
                            · rw [if_neg (fun hh => hu hh.1)]
                              exact Or.inl (by simp)
    · simp only [hc]
      exact ⟨by trivial, fun u => Or.inl le_rfl⟩

lemma close_step_count (hash : String → String) (st : Settings) (clock : Clock)
    (db : Db) (user : User) (req : CloseRequest) :
    (run_op hash st user db (TradeOp.closeOp clock req)).risk_overrides =
      db.risk_overrides ∧
    ∀ u : String,
      count_open (run_op hash st user db (TradeOp.closeOp clock req)) u ≤
        count_open db u := by
  unfold run_op close_position
  dsimp only
  rcases hf : db.positions.find? (fun q => decide (q.id = req.position_id)) with _ | p
  · simp only [hf]
    exact ⟨by trivial, fun u => le_rfl⟩
  · simp only [hf]
    by_cases h1 : p.user_id ≠ user.id
    · rw [if_pos h1]
      exact ⟨by trivial, fun u => le_rfl⟩
    · rw [if_neg h1]
      by_cases h2 : p.status ≠ "OPEN"
      · rw [if_pos h2]
        exact ⟨by trivial, fun u => le_rfl⟩
      · rw [if_neg h2]
        refine ⟨by trivial, fun u => ?_⟩
        exact count_open_update_le db.positions p.id _ u (by simp)

lemma run_op_step (hash : String → String) (st : Settings) (user : User) (db : Db)
    (op : TradeOp) :
    (run_op hash st user db op).risk_overrides = db.risk_overrides ∧
    ∀ u : String,
      count_open (run_op hash st user db op) u ≤ count_open db u ∨
      ((count_open db u : ℤ) <
          (resolve_risk_profile st db.risk_overrides user.id user.email).max_open_positions ∧
        count_open (run_op hash st user db op) u = count_open db u + 1) := by
  cases op with
  | openOp clock req => exact open_step_count hash st clock db user req
  | closeOp clock req =>
      obtain ⟨h1, h2⟩ := close_step_count hash st clock db user req
      exact ⟨h1, fun u => Or.inl (h2 u)⟩

lemma open_cap_invariant (hash : String → String) (st : Settings) (user : User)
    (ops : List TradeOp) :
    ∀ (db : Db) (M : ℤ),
      (resolve_risk_profile st db.risk_overrides user.id user.email).max_open_positions = M →
      (count_open db user.id : ℤ) ≤ M →
      (count_open (run_ops hash st user db ops) user.id : ℤ) ≤ M := by
  induction ops with
  | nil =>
      intro db M _ h
      simpa [run_ops] using h
  | cons op ops ih =>
      intro db M hM h
      have hstep := run_op_step hash st user db op
      have hM' : (resolve_risk_profile st (run_op hash st user db op).risk_overrides
          user.id user.email).max_open_positions = M := by
        rw [hstep.1]
        exact hM
      have hbound : (count_open (run_op hash st user db op) user.id : ℤ) ≤ M := by
        rcases hstep.2 user.id with hle | ⟨hlt, heq⟩
        · calc (count_open (run_op hash st user db op) user.id : ℤ)
              ≤ (count_open db user.id : ℤ) := by exact_mod_cast hle
            _ ≤ M := h
        · have heq' : (count_open (run_op hash st user db op) user.id : ℤ) =
              (count_open db user.id : ℤ) + 1 := by exact_mod_cast heq
          rw [heq']
          rw [hM] at hlt
          omega
      show (count_open (List.foldl (run_op hash st user) db (op :: ops)) user.id : ℤ) ≤ M
      rw [List.foldl_cons]
      exact ih (run_op hash st user db op) M hM' hbound

/-- The position row a successful `open_from_signal` inserts. -/
def opened_position (clock : Clock) (db : Db) (req : OpenRequest) (s : Signal)
    (uid : String) (entry : ℚ) : Position :=
  { id := toString db.next_position_id
    user_id := uid
    signal_id := s.id
    symbol := s.symbol
    side := "LONG"
    qty := req.qty
    entry_price := entry
    stop_loss := s.stop_loss
    take_profit := s.take_profit
    status := "OPEN"
    opened_at := clock.now_minutes
    closed_at := none
    realized_pnl := none
    fees := none }

/-- C1 (counterexample): a failing signal-existence precondition aborts
with a 404 error and no audit action at all, refuting "the first failing
one aborts with a 409-class error and its own audit action" for the
signal-validation members of the listed order. -/
theorem open_gate_counterexample :
    open_from_signal id settings₀ clock₀ db₀ user₀
        { signal_id := "missing", qty := 1, idempotency_key := none } =
      Except.error (ApiError.http 404 ("Signal not found"), db₀) ∧
    db₀.audit_log = [] ∧
    (404 : ℤ) ≠ 409 :=
  ⟨rfl, rfl, by decide⟩

/-- C1 (amended): in `open_from_signal` the preconditions are evaluated
in the listed order — idempotency replay, signal exists / owned /
EXECUTING, entry price present, kill-switch, exposure caps, max open
positions, cooldown, daily stop, max trades — and the first failing one
aborts without creating a Position; the risk gates (max open positions,
cooldown, daily stop, max trades) each abort with a 409 error and their
own audit action, while the signal-validation failures use 404/403/409/
400 with no audit entry. In particular a caller with at least
`max_open_positions` OPEN positions is blocked with audit action
`position.open.blocked.max_open_positions`, and a sequence of open and
close operations never raises the user's OPEN-position count above the
resolved profile's `max_open_positions`. -/
theorem open_gate_order_and_open_cap
    (hash : String → String) (st : Settings) (clock : Clock) (db : Db) (user : User)
    (req : OpenRequest) (s : Signal) (entry : ℚ)
    (hconsume : consume_idempotent_response hash db.idempotency_keys user.id
      "/positions/open_from_signal" req.idempotency_key
      (canonical_open_payload req.signal_id req.qty) = Except.ok none)
    (hsig : db.signals.find? (fun s' => decide (s'.id = req.signal_id)) = some s)
    (howner : s.user_id = user.id) (hexec : s.status = "EXECUTING")
    (hentry : s.entry_price = some entry)
    (htrading : get_trading_enabled st db.runtime_settings = true)
    (hexpo : assert_exposure_limits st db user (infer_exchange_from_symbol s.symbol)
      s.symbol req.qty entry = Except.ok ()) :
    (((open_positions_for db.positions user.id).length : ℤ) ≥
        (resolve_risk_profile st db.risk_overrides user.id user.email).max_open_positions →
      open_from_signal hash st clock db user req =
        Except.error
          (ApiError.http 409 ("Risk block: max open positions reached"),
            log_audit_event db "position.open.blocked.max_open_positions"
              user.id "risk")) ∧
    (¬ (((open_positions_for db.positions user.id).length : ℤ) ≥
        (resolve_risk_profile st db.risk_overrides user.id user.email).max_open_positions) →
      open_cooldown_hit st clock db user user.id = true →
      open_from_signal hash st clock db user req =
        Except.error
          (ApiError.http 409 ("Risk block: cooldown active ("
              ++ toString (resolve_risk_profile st db.risk_overrides user.id
                user.email).cooldown_between_trades_minutes ++ "m)"),
            log_audit_event db "position.open.blocked.cooldown" user.id "risk")) ∧
    (¬ (((open_positions_for db.positions user.id).length : ℤ) ≥
        (resolve_risk_profile st db.risk_overrides user.id user.email).max_open_positions) →
      ¬ (open_cooldown_hit st clock db user user.id = true) →
      (open_daily_row st clock db user user.id).realized_pnl_today ≤
        (open_daily_row st clock db user user.id).daily_stop →
      open_from_signal hash st clock db user req =
        Except.error
          (ApiError.http 409 ("Risk block: daily stop reached"),
            log_audit_event
              { db with daily_risk :=
                  upsert_daily db.daily_risk (open_daily_row st clock db user user.id) }
              "position.open.blocked.daily_stop" user.id "risk")) ∧
    (¬ (((open_positions_for db.positions user.id).length : ℤ) ≥
        (resolve_risk_profile st db.risk_overrides user.id user.email).max_open_positions) →
      ¬ (open_cooldown_hit st clock db user user.id = true) →
      ¬ ((open_daily_row st clock db user user.id).realized_pnl_today ≤
        (open_daily_row st clock db user user.id).daily_stop) →
      (open_daily_row st clock db user user.id).trades_today ≥
        (open_daily_row st clock db user user.id).max_trades →
      open_from_signal hash st clock db user req =
        Except.error
          (ApiError.http 409 ("Risk block: max trades reached"),
            log_audit_event
              { db with daily_risk :=
                  upsert_daily db.daily_risk (open_daily_row st clock db user user.id) }
              "position.open.blocked.max_trades" user.id "risk")) ∧
    ((opened_position clock db req s user.id entry).status = "OPEN" ∧
      (opened_position clock db req s user.id entry).user_id = user.id ∧
      (opened_position clock db req s user.id entry).side = "LONG" ∧
      (opened_position clock db req s user.id entry).entry_price = entry) ∧
    (¬ (((open_positions_for db.positions user.id).length : ℤ) ≥
        (resolve_risk_profile st db.risk_overrides user.id user.email).max_open_positions) →
      ¬ (open_cooldown_hit st clock db user user.id = true) →
      ¬ ((open_daily_row st clock db user user.id).realized_pnl_today ≤
        (open_daily_row st clock db user user.id).daily_stop) →
      ¬ ((open_daily_row st clock db user user.id).trades_today ≥
        (open_daily_row st clock db user user.id).max_trades) →
      (run_op hash st user db (TradeOp.openOp clock req)).positions =
        db.positions ++ [opened_position clock db req s user.id entry]) ∧
    (∀ (ops : List TradeOp) (M : ℤ),
      (resolve_risk_profile st db.risk_overrides user.id user.email).max_open_positions = M →
      (count_open db user.id : ℤ) ≤ M →
      (count_open (run_ops hash st user db ops) user.id : ℤ) ≤ M) := by
  have hT : assert_trading_enabled st db user "position_open"
      (infer_exchange_from_symbol s.symbol) = Except.ok () := by
    simp [assert_trading_enabled, htrading]
  refine ⟨?_, ?_, ?_, ?_, ⟨rfl, rfl, rfl, rfl⟩, ?_, ?_⟩
  · intro hm
    unfold open_from_signal
    dsimp only
    simp only [hconsume, hsig, howner, hexec, hentry]
    rw [if_neg (by simp), if_neg (by simp)]
    simp only [hT, hexpo]
    rw [if_pos hm]
  · intro h1 h2
    unfold open_from_signal
    dsimp only
    simp only [hconsume, hsig, howner, hexec, hentry]
    rw [if_neg (by simp), if_neg (by simp)]
    simp only [hT, hexpo]
    rw [if_neg h1, if_pos h2]
  · intro h1 h2 h3
    unfold open_from_signal
    dsimp only
    simp only [hconsume, hsig, howner, hexec, hentry]
    rw [if_neg (by simp), if_neg (by simp)]
    simp only [hT, hexpo]
    rw [if_neg h1, if_neg h2, if_pos h3]
  · intro h1 h2 h3 h4
    unfold open_from_signal
    dsimp only
    simp only [hconsume, hsig, howner, hexec, hentry]
    rw [if_neg (by simp), if_neg (by simp)]
    simp only [hT, hexpo]
    rw [if_neg h1, if_neg h2, if_neg h3, if_pos h4]
  · intro h1 h2 h3 h4
    unfold run_op open_from_signal
    dsimp only
    simp only [hconsume, hsig, howner, hexec, hentry]
    rw [if_neg (by simp), if_neg (by simp)]
    simp only [hT, hexpo]
    rw [if_neg h1, if_neg h2, if_neg h3, if_neg h4]
    rw [(store_tail _ _ _ _ _ _ _ _ _).1, log_audit_positions]
    rfl
  · intro ops M hM hle
    exact open_cap_invariant hash st user ops db M hM hle

/-- A database with two OPEN positions for the sample user and a valid
EXECUTING signal, saturating the default profile's
`max_open_positions = 2`. -/
def db_two_open : Db :=
  { db₀ with
    positions := [position₁, { position₁ with id := "p2" }]
    signals := [signal_exec] }

/-- Witness for C1: with two OPEN positions already held under the
default profile (max_open_positions = 2), a valid open request is
blocked 409 with audit action `position.open.blocked.max_open_positions`. -/
theorem open_gate_order_and_open_cap_witness :
    db_two_open.signals.find? (fun s' => decide (s'.id = "s1")) = some signal_exec ∧
    get_trading_enabled settings₀ db_two_open.runtime_settings = true ∧
    ((open_positions_for db_two_open.positions user₀.id).length : ℤ) ≥
      (resolve_risk_profile settings₀ db_two_open.risk_overrides user₀.id
        user₀.email).max_open_positions ∧
    open_from_signal id settings₀ clock₀ db_two_open user₀
        { signal_id := "s1", qty := 1, idempotency_key := none } =
      Except.error
        (ApiError.http 409 ("Risk block: max open positions reached"),
          log_audit_event db_two_open "position.open.blocked.max_open_positions"
            user₀.id "risk") := by
  refine ⟨rfl, rfl, by decide, ?_⟩
  exact (open_gate_order_and_open_cap id settings₀ clock₀ db_two_open user₀
    { signal_id := "s1", qty := 1, idempotency_key := none } signal_exec 100
    rfl rfl rfl rfl rfl rfl rfl).1 (by decide)

end CryptoSaas
